import Mathlib

/-!
Verification of the PostgreSQL comparative diagnostic tool
(`pg_comparative.py`).

Conventions of the shallow embedding:

* SQL `numeric` values that carry two decimal places (cache-hit percent,
  unused-index percent, dead-row percent, rounded durations, ...) are
  represented as `Int` numbers of *hundredths* (so `95.00` is `9500`).
  Thresholds from the source are scaled accordingly: the Python test
  `cache_diff < -10` becomes `< -1000` on hundredths.  The Python code
  manipulates these values as floats; every value reachable from the SQL
  layer is a two-decimal quantity, which this integer encoding represents
  exactly.
* A SQL `NULL` field is `Option.none`; a whole result row that is absent
  (the query failed or returned no rows, Python's `{}` / `[]`) is the
  `none` of an outer `Option`.  This mirrors Python's distinction between
  `d.get(k, default)` on an empty dict (yields the default) and a present
  key holding `None`.
* Python `"sep".join(xs)` is `pyJoin`.
-/

/-- Python `"sep".join(xs)`: empty string on `[]`, otherwise the elements
interleaved with the separator. -/
def pyJoin (sep : String) : List String → String
  | [] => ""
  | a :: as => as.foldl (fun acc x => acc ++ sep ++ x) a

/-- Absolute value on `Int`, written with `natAbs` so that it reduces in the
kernel (models Python `abs` on the numeric values in play). -/
def intAbs (n : Int) : Int := Int.ofNat n.natAbs

/-- Python `f"{x:.1f}"` applied to the two-decimal value `n / 100`:
round half-to-even to one decimal place and print with exactly one digit
after the point. -/
def fmtF1 (n : Int) : String :=
  let q := n.ediv 10
  let r := n.emod 10
  let d := if r < 5 then q else if 5 < r then q + 1
           else if q.emod 2 = 0 then q else q + 1
  (if d < 0 then "-" else "") ++ toString (d.natAbs / 10) ++ "." ++ toString (d.natAbs % 10)

/-- Rendering of a two-decimal value `n / 100` the way `str(Decimal)` shows a
scale-2 SQL numeric, e.g. `9500 ↦ "95.00"`. -/
def showDec2 (n : Int) : String :=
  (if n < 0 then "-" else "") ++ toString (n.natAbs / 100) ++ "." ++
    (if n.natAbs % 100 < 10 then "0" else "") ++ toString (n.natAbs % 100)

/-- Python `f"{x}"` on an optional string: `None` prints as `"None"`. -/
def showPyOpt : Option String → String
  | none => "None"
  | some s => s

/-- Row of the version/configuration query (`get_version_info`).  The
`random_page_cost` field is display-only in the source (a float that is never
compared); it is kept in already-rendered form. -/
structure VersionRow where
  version : String
  pg_version : String
  max_connections : Int
  shared_buffers : String
  effective_cache_size : String
  work_mem : String
  maintenance_work_mem : String
  random_page_cost : String
  effective_io_concurrency : Int
  synchronous_commit : String
  wal_level : String
deriving DecidableEq, Repr

/-- Row of the connection-statistics query (`get_connection_stats`).
`connection_usage_percent` is an integral SQL `ROUND`, nullable. -/
structure ConnRow where
  current_connections : Int
  max_connections : Int
  active_connections : Int
  idle_connections : Int
  connection_usage_percent : Option Int
deriving DecidableEq, Repr

/-- Row of the cache-hit query (`get_cache_hit_ratio`); percents are
two-decimal values in hundredths, `none` for SQL `NULL`. -/
structure CacheRow where
  heap_read : Option Int
  heap_hit : Option Int
  cache_hit_percent : Option Int
  idx_read : Option Int
  idx_hit : Option Int
  idx_cache_hit_percent : Option Int
deriving DecidableEq, Repr

/-- Row of the index-statistics query (`get_index_stats`); percents and
averages are two-decimal values in hundredths. -/
structure IdxRow where
  total_indexes : Int
  unused_indexes : Option Int
  unused_indexes_percent : Option Int
  avg_index_scans : Option Int
deriving DecidableEq, Repr

/-- Python `float(cache.get('cache_hit_percent', 0) or 0)`: an absent row or
a `NULL` (or zero) field both collapse to `0`. -/
def cachePct : Option CacheRow → Int
  | none => 0
  | some r => r.cache_hit_percent.getD 0

/-- Python `int(c.get('connection_usage_percent', 0) or 0)`. -/
def connPct : Option ConnRow → Int
  | none => 0
  | some r => r.connection_usage_percent.getD 0

/-- Python `float(idx.get('unused_indexes_percent', 0) or 0)` in
hundredths. -/
def unusedPct : Option IdxRow → Int
  | none => 0
  | some r => r.unused_indexes_percent.getD 0

/-- Python `v.get('shared_buffers')`: `None` when the version dict is empty
(failed query), otherwise the setting string. -/
def sharedBuffersOf (v : Option VersionRow) : Option String :=
  v.map VersionRow.shared_buffers

/-- Title line of the CRITICAL cache advisory, with the absolute delta
(in hundredths) interpolated at one decimal place, exactly as the f-string
in `generate_recommendations`. -/
def cacheCritLine (d : Int) : String :=
  "❌ **Cache Hit Ratio**: Server 2 has " ++ fmtF1 (intAbs d) ++
    "% lower cache hit ratio. This is likely the PRIMARY performance issue."

/-- Fixed line appended by the `else` branch of the cache rule. -/
def cacheSimilarLine : String := "✅ **Cache Hit Ratio**: Similar between servers"

/-- Title line of the connection-pool advisory with the integral delta
interpolated. -/
def connPoolLine (d : Int) : String :=
  "\n❌ **Connection Pool**: Server 2 has " ++ toString d ++ "% higher connection usage"

/-- Title line of the index-usage advisory with the delta (hundredths) at one
decimal place. -/
def idxUsageLine (d : Int) : String :=
  "\n❌ **Index Usage**: Server 2 has " ++ fmtF1 d ++ "% more unused indexes"

/-- Title line of the memory-configuration advisory. -/
def memConfigLine : String := "\n⚠️ **Memory Config**: Different `shared_buffers` settings"

/-- The fallback advisory of `generate_recommendations` (appended only when
the accumulated list is empty). -/
def noMajorLine : String :=
  "✅ No major differences found. Issue may be application-level or related to data patterns."

/-- Lines contributed by the cache-hit-ratio rule (first block of
`generate_recommendations`); `d` is the delta in hundredths, Python's
`cache_diff < -10` is `d < -1000`.  Note the `else` branch also contributes
a line, so this block is never empty. -/
def cacheRecOf (d : Int) : List String :=
  if d < -1000 then
    [cacheCritLine d,
     "   - **Fix**: Check for missing indexes on Server 2",
     "   - **Fix**: Increase `shared_buffers` and `effective_cache_size` on Server 2",
     "   - **Fix**: Analyze queries with high sequential scans vs index scans"]
  else
    [cacheSimilarLine]

/-- Lines contributed by the connection-usage rule (`conn_diff > 20`). -/
def connRecOf (d : Int) : List String :=
  if d > 20 then
    [connPoolLine d,
     "   - **Fix**: Identify connection leaks in application",
     "   - **Fix**: Implement connection pooling (PgBouncer)"]
  else []

/-- Lines contributed by the unused-index rule (`unused_diff > 5`, in
hundredths `> 500`). -/
def idxRecOf (d : Int) : List String :=
  if d > 500 then
    [idxUsageLine d,
     "   - **Fix**: Drop unused indexes to free disk space and improve writes"]
  else []

/-- Lines contributed by the `shared_buffers` configuration-drift rule. -/
def memRecOf (sb1 sb2 : Option String) : List String :=
  if sb1 ≠ sb2 then
    [memConfigLine,
     "   - Server 1: " ++ showPyOpt sb1,
     "   - Server 2: " ++ showPyOpt sb2,
     "   - **Fix**: Align settings or upgrade Server 2 configuration"]
  else []

/-- The list `recommendations` built by `generate_recommendations`, line by
line in source order: cache rule (with an `else` line), connection rule,
index rule, memory-configuration rule, then the empty-list fallback. -/
def generate_recommendations_lines (v1 v2 : Option VersionRow)
    (cache1 cache2 : Option CacheRow) (c1 c2 : Option ConnRow)
    (idx1 idx2 : Option IdxRow) : List String :=
  let recs :=
    cacheRecOf (cachePct cache2 - cachePct cache1) ++
    connRecOf (connPct c2 - connPct c1) ++
    idxRecOf (unusedPct idx2 - unusedPct idx1) ++
    memRecOf (sharedBuffersOf v1) (sharedBuffersOf v2)
  if recs.isEmpty then [noMajorLine] else recs

/-- Return value of `generate_recommendations`: the lines joined with
newlines. -/
def generate_recommendations (v1 v2 : Option VersionRow)
    (cache1 cache2 : Option CacheRow) (c1 c2 : Option ConnRow)
    (idx1 idx2 : Option IdxRow) : String :=
  pyJoin "\n" (generate_recommendations_lines v1 v2 cache1 cache2 c1 c2 idx1 idx2)

/-- A string is a CRITICAL cache-advisory title exactly when its first six
characters are those of `cacheCritLine`. -/
def isCacheCritLine (s : String) : Bool :=
  decide (s.data.take 6 = ['❌', ' ', '*', '*', 'C', 'a'])

-- Helper lemmas for distinguishing the advisory lines by their first
-- characters, which are fixed even where the tail is data-dependent.

lemma data_take_append (p s : String) (k : Nat) (h : k ≤ p.data.length) :
    ((p ++ s).data.take k) = p.data.take k := by
  rw [String.data_append, List.take_append_of_le_length h]

lemma ne_of_take6 (a b : String) (h : a.data.take 6 ≠ b.data.take 6) : a ≠ b :=
  fun e => h (by rw [e])

lemma take6_cacheCritLine (d : Int) :
    (cacheCritLine d).data.take 6 = ['❌', ' ', '*', '*', 'C', 'a'] := by
  have h : (6 : Nat) ≤ ("❌ **Cache Hit Ratio**: Server 2 has ").data.length := by decide
  rw [cacheCritLine, String.append_assoc, data_take_append _ _ 6 h]
  decide

lemma take6_connPoolLine (d : Int) :
    (connPoolLine d).data.take 6 = ['\n', '❌', ' ', '*', '*', 'C'] := by
  have h : (6 : Nat) ≤ ("\n❌ **Connection Pool**: Server 2 has ").data.length := by decide
  rw [connPoolLine, String.append_assoc, data_take_append _ _ 6 h]
  decide

lemma take6_idxUsageLine (d : Int) :
    (idxUsageLine d).data.take 6 = ['\n', '❌', ' ', '*', '*', 'I'] := by
  have h : (6 : Nat) ≤ ("\n❌ **Index Usage**: Server 2 has ").data.length := by decide
  rw [idxUsageLine, String.append_assoc, data_take_append _ _ 6 h]
  decide

lemma take6_server1Line (o : Option String) :
    ("   - Server 1: " ++ showPyOpt o).data.take 6 = [' ', ' ', ' ', '-', ' ', 'S'] := by
  have h : (6 : Nat) ≤ ("   - Server 1: ").data.length := by decide
  rw [data_take_append _ _ 6 h]
  decide

lemma take6_server2Line (o : Option String) :
    ("   - Server 2: " ++ showPyOpt o).data.take 6 = [' ', ' ', ' ', '-', ' ', 'S'] := by
  have h : (6 : Nat) ≤ ("   - Server 2: ").data.length := by decide
  rw [data_take_append _ _ 6 h]
  decide

lemma take6_noMajorLine : noMajorLine.data.take 6 = ['✅', ' ', 'N', 'o', ' ', 'm'] := by
  decide

lemma noMajor_ne_crit (d : Int) : noMajorLine ≠ cacheCritLine d :=
  ne_of_take6 _ _ (by rw [take6_noMajorLine, take6_cacheCritLine]; decide)

lemma noMajor_ne_connPool (d : Int) : noMajorLine ≠ connPoolLine d :=
  ne_of_take6 _ _ (by rw [take6_noMajorLine, take6_connPoolLine]; decide)

lemma noMajor_ne_idxUsage (d : Int) : noMajorLine ≠ idxUsageLine d :=
  ne_of_take6 _ _ (by rw [take6_noMajorLine, take6_idxUsageLine]; decide)

lemma noMajor_ne_server1 (o : Option String) :
    noMajorLine ≠ "   - Server 1: " ++ showPyOpt o :=
  ne_of_take6 _ _ (by rw [take6_noMajorLine, take6_server1Line]; decide)

lemma noMajor_ne_server2 (o : Option String) :
    noMajorLine ≠ "   - Server 2: " ++ showPyOpt o :=
  ne_of_take6 _ _ (by rw [take6_noMajorLine, take6_server2Line]; decide)

lemma noMajor_not_mem_cacheRec (d : Int) : noMajorLine ∉ cacheRecOf d := by
  unfold cacheRecOf
  split
  · simp only [List.mem_cons, List.not_mem_nil, or_false, not_or]
    exact ⟨noMajor_ne_crit d, by decide, by decide, by decide⟩
  · simp only [List.mem_cons, List.not_mem_nil, or_false]
    decide

lemma noMajor_not_mem_connRec (d : Int) : noMajorLine ∉ connRecOf d := by
  unfold connRecOf
  split
  · simp only [List.mem_cons, List.not_mem_nil, or_false, not_or]
    exact ⟨noMajor_ne_connPool d, by decide, by decide⟩
  · simp

lemma noMajor_not_mem_idxRec (d : Int) : noMajorLine ∉ idxRecOf d := by
  unfold idxRecOf
  split
  · simp only [List.mem_cons, List.not_mem_nil, or_false, not_or]
    exact ⟨noMajor_ne_idxUsage d, by decide⟩
  · simp

lemma noMajor_not_mem_memRec (sb1 sb2 : Option String) : noMajorLine ∉ memRecOf sb1 sb2 := by
  unfold memRecOf
  split
  · simp only [List.mem_cons, List.not_mem_nil, or_false, not_or]
    exact ⟨by decide, noMajor_ne_server1 sb1, noMajor_ne_server2 sb2, by decide⟩
  · simp

lemma cacheRec_append_ne_nil (d : Int) (l : List String) : (cacheRecOf d ++ l) ≠ [] := by
  unfold cacheRecOf
  split <;> simp

lemma grl_eq (v1 v2 : Option VersionRow) (cache1 cache2 : Option CacheRow)
    (c1 c2 : Option ConnRow) (idx1 idx2 : Option IdxRow) :
    generate_recommendations_lines v1 v2 cache1 cache2 c1 c2 idx1 idx2 =
      cacheRecOf (cachePct cache2 - cachePct cache1) ++
      connRecOf (connPct c2 - connPct c1) ++
      idxRecOf (unusedPct idx2 - unusedPct idx1) ++
      memRecOf (sharedBuffersOf v1) (sharedBuffersOf v2) := by
  unfold generate_recommendations_lines
  rw [if_neg]
  simp only [List.isEmpty_iff, List.append_assoc]
  exact cacheRec_append_ne_nil _ _

lemma grl_ne_nil (v1 v2 : Option VersionRow) (cache1 cache2 : Option CacheRow)
    (c1 c2 : Option ConnRow) (idx1 idx2 : Option IdxRow) :
    generate_recommendations_lines v1 v2 cache1 cache2 c1 c2 idx1 idx2 ≠ [] := by
  rw [grl_eq]
  simp only [List.append_assoc]
  exact cacheRec_append_ne_nil _ _

lemma noMajor_not_mem_grl (v1 v2 : Option VersionRow) (cache1 cache2 : Option CacheRow)
    (c1 c2 : Option ConnRow) (idx1 idx2 : Option IdxRow) :
    noMajorLine ∉ generate_recommendations_lines v1 v2 cache1 cache2 c1 c2 idx1 idx2 := by
  rw [grl_eq]
  simp only [List.mem_append, not_or]
  exact ⟨⟨⟨noMajor_not_mem_cacheRec _, noMajor_not_mem_connRec _⟩,
    noMajor_not_mem_idxRec _⟩, noMajor_not_mem_memRec _ _⟩

/-- C1.  The claim is twofold.  The first half holds: the cache rule has an
`else` branch that always contributes a line, so `generate_recommendations`
always returns at least one advisory line.  The second half fails: because
the accumulated list is never empty, the `if not recommendations` fallback
is dead code, and when no rule fires the single returned line is the fixed
"Cache Hit Ratio: Similar between servers" message, never the
"no major differences" message.  This theorem proves the amended claim:
the result is never empty, the "no major differences" line never occurs in
it, and when no rule fires the result is exactly the one "similar" line. -/
theorem c1_theorem (v1 v2 : Option VersionRow) (cache1 cache2 : Option CacheRow)
    (c1 c2 : Option ConnRow) (idx1 idx2 : Option IdxRow) :
    generate_recommendations_lines v1 v2 cache1 cache2 c1 c2 idx1 idx2 ≠ []
    ∧ noMajorLine ∉ generate_recommendations_lines v1 v2 cache1 cache2 c1 c2 idx1 idx2
    ∧ (¬ (cachePct cache2 - cachePct cache1 < -1000) →
       ¬ (connPct c2 - connPct c1 > 20) →
       ¬ (unusedPct idx2 - unusedPct idx1 > 500) →
       sharedBuffersOf v1 = sharedBuffersOf v2 →
       generate_recommendations_lines v1 v2 cache1 cache2 c1 c2 idx1 idx2
         = [cacheSimilarLine]) := by
  refine ⟨grl_ne_nil _ _ _ _ _ _ _ _, noMajor_not_mem_grl _ _ _ _ _ _ _ _, ?_⟩
  intro hcache hconn hidx hsb
  rw [grl_eq]
  unfold cacheRecOf connRecOf idxRecOf memRecOf
  rw [if_neg hcache, if_neg hconn, if_neg hidx, if_neg (by simp [hsb])]
  simp

/-- C1 witness/counterexample input: with every query result absent no rule
fires, and the output is the single "similar" line, which is not the
"no major differences" advisory the claim requires. -/
theorem c1_counterexample :
    generate_recommendations_lines none none none none none none none none
      = [cacheSimilarLine]
    ∧ cacheSimilarLine ≠ noMajorLine := by
  constructor
  · decide
  · decide

/-- C1 witness: the amended claim instantiated at the all-absent input. -/
theorem c1_witness :
    generate_recommendations_lines none none none none none none none none ≠ []
    ∧ noMajorLine ∉ generate_recommendations_lines none none none none none none none none
    ∧ generate_recommendations_lines none none none none none none none none
        = [cacheSimilarLine] :=
  ⟨( c1_theorem none none none none none none none none).1,
   ( c1_theorem none none none none none none none none).2.1,
   ( c1_theorem none none none none none none none none).2.2
     (by decide) (by decide) (by decide) rfl⟩

lemma isCacheCritLine_crit (d : Int) : isCacheCritLine (cacheCritLine d) = true := by
  simp [isCacheCritLine, take6_cacheCritLine]

lemma crit_false_cacheRec (d : Int) (h : ¬ d < -1000) :
    ∀ s ∈ cacheRecOf d, isCacheCritLine s = false := by
  unfold cacheRecOf
  rw [if_neg h]
  intro s hs
  simp only [List.mem_cons, List.not_mem_nil, or_false] at hs
  subst hs
  decide

lemma crit_false_connRec (d : Int) : ∀ s ∈ connRecOf d, isCacheCritLine s = false := by
  unfold connRecOf
  split
  · intro s hs
    simp only [List.mem_cons, List.not_mem_nil, or_false] at hs
    rcases hs with h | h | h
    · subst h
      simp [isCacheCritLine, take6_connPoolLine]
    · subst h
      decide
    · subst h
      decide
  · simp

lemma crit_false_idxRec (d : Int) : ∀ s ∈ idxRecOf d, isCacheCritLine s = false := by
  unfold idxRecOf
  split
  · intro s hs
    simp only [List.mem_cons, List.not_mem_nil, or_false] at hs
    rcases hs with h | h
    · subst h
      simp [isCacheCritLine, take6_idxUsageLine]
    · subst h
      decide
  · simp

lemma crit_false_memRec (sb1 sb2 : Option String) :
    ∀ s ∈ memRecOf sb1 sb2, isCacheCritLine s = false := by
  unfold memRecOf
  split
  · intro s hs
    simp only [List.mem_cons, List.not_mem_nil, or_false] at hs
    rcases hs with h | h | h | h
    · subst h
      decide
    · subst h
      simp [isCacheCritLine, take6_server1Line]
    · subst h
      simp [isCacheCritLine, take6_server2Line]
    · subst h
      decide
  · simp

/-- C2.  The source tests `cache_diff < -10` strictly, so the claim's
boundary case is wrong: a delta of exactly −10 does *not* emit the CRITICAL
cache advisory.  Amended claim, proved here (deltas in hundredths): when the
delta is strictly below −10 the CRITICAL cache advisory line — whose title
interpolates the absolute delta formatted to one decimal place — is in the
output; when the delta is −10 or above, no line of the output is a CRITICAL
cache advisory (the fixed "similar" line is produced instead). -/
theorem c2_theorem (v1 v2 : Option VersionRow) (cache1 cache2 : Option CacheRow)
    (c1 c2 : Option ConnRow) (idx1 idx2 : Option IdxRow) :
    (cachePct cache2 - cachePct cache1 < -1000 →
      cacheCritLine (cachePct cache2 - cachePct cache1)
        ∈ generate_recommendations_lines v1 v2 cache1 cache2 c1 c2 idx1 idx2)
    ∧ (¬ (cachePct cache2 - cachePct cache1 < -1000) →
      ∀ s ∈ generate_recommendations_lines v1 v2 cache1 cache2 c1 c2 idx1 idx2,
        isCacheCritLine s = false) := by
  constructor
  · intro h
    rw [grl_eq]
    refine List.mem_append_left _ (List.mem_append_left _ (List.mem_append_left _ ?_))
    unfold cacheRecOf
    rw [if_pos h]
    simp
  · intro h s hs
    rw [grl_eq] at hs
    simp only [List.mem_append] at hs
    rcases hs with ((hc | hc) | hc) | hc
    · exact crit_false_cacheRec _ h s hc
    · exact crit_false_connRec _ s hc
    · exact crit_false_idxRec _ s hc
    · exact crit_false_memRec _ _ s hc

/-- C2 counterexample to the claim as stated: with server 1 at 95.00% and
server 2 at 85.00% the delta is exactly −10, which the claim says emits the
advisory; the code's strict `<` does not fire, and the output contains no
CRITICAL cache advisory at all (it is just the "similar" line).  The values
95.0 and 85.0 are exactly representable floats, so the Python subtraction is
exact and the integer model is faithful here. -/
theorem c2_counterexample :
    generate_recommendations_lines none none
        (some ⟨none, none, some 9500, none, none, none⟩)
        (some ⟨none, none, some 8500, none, none, none⟩)
        none none none none
      = [cacheSimilarLine]
    ∧ isCacheCritLine cacheSimilarLine = false := by
  constructor
  · decide
  · decide

/-- C2 witness: at a delta of −15.00 the amended theorem yields the CRITICAL
advisory, and its title contains "15.0" (the absolute delta at one decimal
place), as shown by the literal rendering. -/
theorem c2_witness :
    cacheCritLine (-1500)
      ∈ generate_recommendations_lines none none
          (some ⟨none, none, some 9500, none, none, none⟩)
          (some ⟨none, none, some 8000, none, none, none⟩)
          none none none none
    ∧ cacheCritLine (-1500)
      = "❌ **Cache Hit Ratio**: Server 2 has 15.0% lower cache hit ratio. This is likely the PRIMARY performance issue." :=
  ⟨( c2_theorem none none
      (some ⟨none, none, some 9500, none, none, none⟩)
      (some ⟨none, none, some 8000, none, none, none⟩)
      none none none none).1 (by decide),
   by decide⟩

lemma connPool_ne_crit (e d : Int) : connPoolLine e ≠ cacheCritLine d :=
  ne_of_take6 _ _ (by rw [take6_connPoolLine, take6_cacheCritLine]; decide)

lemma connPool_ne_idxUsage (e d : Int) : connPoolLine e ≠ idxUsageLine d :=
  ne_of_take6 _ _ (by rw [take6_connPoolLine, take6_idxUsageLine]; decide)

lemma connPool_ne_server1 (e : Int) (o : Option String) :
    connPoolLine e ≠ "   - Server 1: " ++ showPyOpt o :=
  ne_of_take6 _ _ (by rw [take6_connPoolLine, take6_server1Line]; decide)

lemma connPool_ne_server2 (e : Int) (o : Option String) :
    connPoolLine e ≠ "   - Server 2: " ++ showPyOpt o :=
  ne_of_take6 _ _ (by rw [take6_connPoolLine, take6_server2Line]; decide)

lemma connPool_ne_lit (e : Int) (s : String) (h : (connPoolLine e).data.take 6 ≠ s.data.take 6) :
    connPoolLine e ≠ s :=
  ne_of_take6 _ _ h

lemma connPool_not_mem_cacheRec (e d : Int) : connPoolLine e ∉ cacheRecOf d := by
  unfold cacheRecOf
  split
  · simp only [List.mem_cons, List.not_mem_nil, or_false, not_or]
    refine ⟨connPool_ne_crit e d, ?_, ?_, ?_⟩ <;>
      exact connPool_ne_lit e _ (by rw [take6_connPoolLine]; decide)
  · simp only [List.mem_cons, List.not_mem_nil, or_false]
    exact connPool_ne_lit e _ (by rw [take6_connPoolLine]; decide)

lemma connPool_not_mem_idxRec (e d : Int) : connPoolLine e ∉ idxRecOf d := by
  unfold idxRecOf
  split
  · simp only [List.mem_cons, List.not_mem_nil, or_false, not_or]
    exact ⟨connPool_ne_idxUsage e d,
      connPool_ne_lit e _ (by rw [take6_connPoolLine]; decide)⟩
  · simp

lemma connPool_not_mem_memRec (e : Int) (sb1 sb2 : Option String) :
    connPoolLine e ∉ memRecOf sb1 sb2 := by
  unfold memRecOf
  split
  · simp only [List.mem_cons, List.not_mem_nil, or_false, not_or]
    exact ⟨connPool_ne_lit e _ (by rw [take6_connPoolLine]; decide),
      connPool_ne_server1 e sb1, connPool_ne_server2 e sb2,
      connPool_ne_lit e _ (by rw [take6_connPoolLine]; decide)⟩
  · simp

/-- C3.  Confirmed: the connection-pool advisory line (with the integral
delta interpolated) is in the output of `generate_recommendations` exactly
when the connection-usage delta (server 2 minus server 1, absent operands
read as 0) is strictly greater than 20. -/
theorem c3_theorem (v1 v2 : Option VersionRow) (cache1 cache2 : Option CacheRow)
    (c1 c2 : Option ConnRow) (idx1 idx2 : Option IdxRow) :
    connPoolLine (connPct c2 - connPct c1)
        ∈ generate_recommendations_lines v1 v2 cache1 cache2 c1 c2 idx1 idx2
      ↔ connPct c2 - connPct c1 > 20 := by
  rw [grl_eq]
  constructor
  · intro hmem
    by_contra h
    simp only [List.mem_append] at hmem
    rcases hmem with ((hc | hc) | hc) | hc
    · exact connPool_not_mem_cacheRec _ _ hc
    · rw [connRecOf, if_neg h] at hc
      simp at hc
    · exact connPool_not_mem_idxRec _ _ hc
    · exact connPool_not_mem_memRec _ _ _ hc
  · intro h
    refine List.mem_append_left _ (List.mem_append_left _ (List.mem_append_right _ ?_))
    rw [connRecOf, if_pos h]
    simp

/-- C3 witness: a usage delta of 25 (server 2 at 25%, server 1 at 0%) emits
the connection-pool advisory; a delta of 15 does not — in fact with no other
rule firing the output is just the "similar" cache line. -/
theorem c3_witness :
    connPoolLine 25
      ∈ generate_recommendations_lines none none none none
          (some ⟨0, 0, 0, 0, some 0⟩) (some ⟨0, 0, 0, 0, some 25⟩) none none
    ∧ connPoolLine 15
      ∉ generate_recommendations_lines none none none none
          (some ⟨0, 0, 0, 0, some 0⟩) (some ⟨0, 0, 0, 0, some 15⟩) none none
    ∧ generate_recommendations_lines none none none none
          (some ⟨0, 0, 0, 0, some 0⟩) (some ⟨0, 0, 0, 0, some 15⟩) none none
        = [cacheSimilarLine] :=
  ⟨( c3_theorem none none none none
      (some ⟨0, 0, 0, 0, some 0⟩) (some ⟨0, 0, 0, 0, some 25⟩) none none).mpr (by decide),
   fun h => absurd (( c3_theorem none none none none
      (some ⟨0, 0, 0, 0, some 0⟩) (some ⟨0, 0, 0, 0, some 15⟩) none none).mp h)
      (by decide),
   by decide⟩

/-- SQL `NULLIF(a, b)` on non-null operands. -/
def sqlNullif (a b : Nat) : Option Nat := if a = b then none else some a

/-- The `cache_hit_percent` column of `get_cache_hit_ratio`:
`ROUND(100.0 * hit / NULLIF(hit + read, 0), 2)` on the summed heap counters,
expressed in hundredths of a percent.  PostgreSQL `ROUND(numeric, 2)` rounds
half away from zero; the counters are non-negative, so this is the floor of
`10000 * hit / (hit + read) + 1/2`, computed here in integer arithmetic
(division by NULL propagates NULL, so a zero denominator yields NULL, never
a division fault). -/
def cache_hit_percent_sql (hit read : Nat) : Option Int :=
  (sqlNullif (hit + read) 0).map (fun d => (((20000 * hit + d) / (2 * d) : ℕ) : Int))

/-- Rendering used by the report tables: `row.get(field, 'N/A')` on an
optional row, with the field renderer applied when the row is present. -/
def pyGet (row : Option α) (f : α → String) : String :=
  match row with
  | none => "N/A"
  | some r => f r

/-- Python `f"{v}"` for a nullable two-decimal numeric: `None` when NULL. -/
def showOptDec2 : Option Int → String
  | none => "None"
  | some v => showDec2 v

/-- Python `f"{v}"` for a nullable integer: `None` when NULL. -/
def showOptInt : Option Int → String
  | none => "None"
  | some v => toString v

lemma int_div_floor (a d : Nat) (hd : 0 < d) :
    ((a / d : ℕ) : ℤ) = ⌊(a : ℚ) / (d : ℚ)⌋ := by
  have hdq : (0 : ℚ) < (d : ℚ) := by exact_mod_cast hd
  symm
  rw [Int.floor_eq_iff]
  constructor
  · rw [le_div_iff₀ hdq]
    push_cast
    exact_mod_cast Nat.div_mul_le_self a d
  · rw [div_lt_iff₀ hdq]
    push_cast
    have h : a < (a / d + 1) * d := (Nat.div_lt_iff_lt_mul hd).mp (Nat.lt_succ_self _)
    exact_mod_cast h

lemma roundHalfUpDiv (a d : Nat) (hd : d ≠ 0) :
    (((2 * a + d) / (2 * d) : ℕ) : ℤ) = round ((a : ℚ) / (d : ℚ)) := by
  have h2d : 0 < 2 * d := by positivity
  rw [round_eq]
  have hx : (a : ℚ) / (d : ℚ) + 1 / 2 = ((2 * a + d : ℕ) : ℚ) / ((2 * d : ℕ) : ℚ) := by
    have hdq : (d : ℚ) ≠ 0 := by exact_mod_cast hd
    push_cast
    field_simp
    ring
  rw [hx, ← int_div_floor _ _ h2d]

/-- C4.  The computation itself is as claimed: with a non-zero denominator
the column is the half-up rounding of `100 × hit / (hit + read)` to two
decimals (here in hundredths), and with `hit + read = 0` the `NULLIF`
denominator makes the whole expression SQL `NULL` — no division fault is
possible.  The rendering half of the claim is corrected: a present row whose
percent is NULL renders as `"None%"` (Python stringifies the `None` held
under the key), while the `"N/A"` placeholder appears only when the whole
row is absent. -/
theorem c4_theorem (hit read : Nat) :
    (hit + read ≠ 0 →
      cache_hit_percent_sql hit read
        = some (round (((10000 * hit : ℕ) : ℚ) / ((hit + read : ℕ) : ℚ))))
    ∧ (hit + read = 0 → cache_hit_percent_sql hit read = none)
    ∧ (∀ r : CacheRow, r.cache_hit_percent = none →
        pyGet (some r) (fun x => showOptDec2 x.cache_hit_percent) ++ "%" = "None%")
    ∧ pyGet (none : Option CacheRow) (fun x => showOptDec2 x.cache_hit_percent) ++ "%"
        = "N/A%" := by
  refine ⟨?_, ?_, ?_, by decide⟩
  · intro h
    unfold cache_hit_percent_sql sqlNullif
    rw [if_neg h]
    simp only [Option.map_some']
    congr 1
    have h2 : 20000 * hit + (hit + read) = 2 * (10000 * hit) + (hit + read) := by ring
    rw [h2]
    exact roundHalfUpDiv (10000 * hit) (hit + read) h
  · intro h
    unfold cache_hit_percent_sql sqlNullif
    rw [if_pos h]
    rfl
  · intro r h
    simp only [pyGet, h, showOptDec2]
    decide

/-- C4 counterexample to the rendering half of the claim: with
`hit = read = 0` the column is NULL, and the report cell for a present row
holding that NULL is the string `"None%"`, not the `"N/A"` placeholder. -/
theorem c4_counterexample :
    cache_hit_percent_sql 0 0 = none
    ∧ pyGet (some (⟨none, none, none, none, none, none⟩ : CacheRow))
        (fun x => showOptDec2 x.cache_hit_percent) ++ "%" = "None%"
    ∧ "None%" ≠ "N/A%" := by
  refine ⟨rfl, by decide, by decide⟩

/-- C4 witness: 950 hits and 50 reads give exactly 95.00 percent (9500
hundredths, rendered "95.00"), and the degenerate 0/0 input gives NULL. -/
theorem c4_witness :
    cache_hit_percent_sql 950 50
      = some (round (((10000 * 950 : ℕ) : ℚ) / ((950 + 50 : ℕ) : ℚ)))
    ∧ cache_hit_percent_sql 950 50 = some 9500
    ∧ showDec2 9500 = "95.00"
    ∧ cache_hit_percent_sql 0 0 = none :=
  ⟨( c4_theorem 950 50).1 (by decide), by decide, by decide, ( c4_theorem 0 0).2.1 rfl⟩

/-- The columns of `pg_stat_user_tables` consumed by
`get_query_performance_issues`; `table_size` stands for the rendered
`pg_size_pretty(pg_total_relation_size(...))`. -/
structure TableStat where
  schemaname : String
  relname : String
  seq_scan : Nat
  idx_scan : Nat
  table_size : String
deriving DecidableEq, Repr

/-- A result row of `get_query_performance_issues`. -/
structure PerfRow where
  schemaname : String
  table_name : String
  seq_vs_idx_diff : Int
  seq_scan : Nat
  idx_scan : Nat
  issue_type : String
  table_size : String
deriving DecidableEq, Repr

/-- The `CASE` expression classifying a table: `MISSING_INDEX` takes
precedence over `FULL_TABLE_SCANS`. -/
def issueType (t : TableStat) : String :=
  if t.idx_scan = 0 ∧ t.seq_scan > 100 then "MISSING_INDEX"
  else if t.seq_scan > t.idx_scan * 10 then "FULL_TABLE_SCANS"
  else "OK"

/-- The `WHERE` clause: `(idx_scan = 0 AND seq_scan > 100) OR
(seq_scan > idx_scan * 10)`. -/
def perfFilter (t : TableStat) : Bool :=
  decide ((t.idx_scan = 0 ∧ t.seq_scan > 100) ∨ t.seq_scan > t.idx_scan * 10)

/-- The projected output row for one table. -/
def perfRowOf (t : TableStat) : PerfRow :=
  ⟨t.schemaname, t.relname, (t.seq_scan : Int) - (t.idx_scan : Int),
   t.seq_scan, t.idx_scan, issueType t, t.table_size⟩

/-- Stable insertion (descending by `seq_scan`) used to model
`ORDER BY seq_scan DESC`. -/
def insertBySeqDesc (x : PerfRow) : List PerfRow → List PerfRow
  | [] => [x]
  | y :: ys => if y.seq_scan ≤ x.seq_scan then x :: y :: ys else y :: insertBySeqDesc x ys

/-- Stable insertion sort, descending by `seq_scan`. -/
def sortBySeqDesc : List PerfRow → List PerfRow
  | [] => []
  | x :: xs => insertBySeqDesc x (sortBySeqDesc xs)

/-- `get_query_performance_issues` over the table statistics: filter by the
`WHERE` clause, project the columns, order by `seq_scan` descending,
`LIMIT 15`. -/
def get_query_performance_issues (rows : List TableStat) : List PerfRow :=
  (sortBySeqDesc ((rows.filter perfFilter).map perfRowOf)).take 15

lemma mem_insertBySeqDesc (x a : PerfRow) (l : List PerfRow) :
    a ∈ insertBySeqDesc x l ↔ a = x ∨ a ∈ l := by
  induction l with
  | nil => simp [insertBySeqDesc]
  | cons y ys ih =>
    unfold insertBySeqDesc
    split
    · simp
    · simp only [List.mem_cons, ih]
      tauto

lemma mem_sortBySeqDesc (a : PerfRow) (l : List PerfRow) :
    a ∈ sortBySeqDesc l ↔ a ∈ l := by
  induction l with
  | nil => simp [sortBySeqDesc]
  | cons x xs ih =>
    unfold sortBySeqDesc
    rw [mem_insertBySeqDesc]
    simp [ih]

lemma pairwise_insertBySeqDesc (x : PerfRow) (l : List PerfRow)
    (h : List.Pairwise (fun a b => b.seq_scan ≤ a.seq_scan) l) :
    List.Pairwise (fun a b => b.seq_scan ≤ a.seq_scan) (insertBySeqDesc x l) := by
  induction l with
  | nil => simp [insertBySeqDesc]
  | cons y ys ih =>
    obtain ⟨hy, hys⟩ := List.pairwise_cons.mp h
    unfold insertBySeqDesc
    split
    · refine List.Pairwise.cons ?_ (List.pairwise_cons.mpr ⟨hy, hys⟩)
      intro b hb
      rcases List.mem_cons.mp hb with hb | hb
      · subst hb
        assumption
      · exact le_trans (hy b hb) (by assumption)
    · refine List.Pairwise.cons ?_ (ih hys)
      intro b hb
      rcases (mem_insertBySeqDesc x b ys).mp hb with hb | hb
      · subst hb
        omega
      · exact hy b hb

lemma pairwise_sortBySeqDesc (l : List PerfRow) :
    List.Pairwise (fun a b => b.seq_scan ≤ a.seq_scan) (sortBySeqDesc l) := by
  induction l with
  | nil => simp [sortBySeqDesc]
  | cons x xs ih => exact pairwise_insertBySeqDesc x _ ih

lemma issueType_missing_iff (t : TableStat) :
    issueType t = "MISSING_INDEX" ↔ (t.idx_scan = 0 ∧ t.seq_scan > 100) := by
  unfold issueType
  by_cases hA : t.idx_scan = 0 ∧ t.seq_scan > 100
  · simp [hA]
  · rw [if_neg hA]
    split
    · constructor
      · intro h
        exact absurd h (by decide)
      · intro h
        exact absurd h hA
    · constructor
      · intro h
        exact absurd h (by decide)
      · intro h
        exact absurd h hA

lemma issueType_full_iff (t : TableStat) :
    issueType t = "FULL_TABLE_SCANS"
      ↔ (¬ (t.idx_scan = 0 ∧ t.seq_scan > 100) ∧ t.seq_scan > t.idx_scan * 10) := by
  unfold issueType
  by_cases hA : t.idx_scan = 0 ∧ t.seq_scan > 100
  · rw [if_pos hA]
    constructor
    · intro h
      exact absurd h (by decide)
    · intro h
      exact absurd hA h.1
  · rw [if_neg hA]
    by_cases hB : t.seq_scan > t.idx_scan * 10
    · rw [if_pos hB]
      simp [hA, hB]
    · rw [if_neg hB]
      constructor
      · intro h
        exact absurd h (by decide)
      · intro h
        exact absurd h.2 hB

/-- C5.  Confirmed: every emitted row is labelled `MISSING_INDEX` exactly
when its index-scan count is zero and its sequential-scan count exceeds 100,
labelled `FULL_TABLE_SCANS` exactly when it fails that first test but has
`seq_scan > idx_scan * 10` (the `CASE` gives `MISSING_INDEX` precedence),
and every emitted row satisfies the `WHERE` disjunction — rows matching
neither condition are excluded entirely; the result has at most 15 rows and
is ordered by `seq_scan` descending. -/
theorem c5_theorem (rows : List TableStat) :
    (∀ p ∈ get_query_performance_issues rows,
      (p.issue_type = "MISSING_INDEX" ↔ (p.idx_scan = 0 ∧ p.seq_scan > 100))
      ∧ (p.issue_type = "FULL_TABLE_SCANS"
          ↔ (¬ (p.idx_scan = 0 ∧ p.seq_scan > 100) ∧ p.seq_scan > p.idx_scan * 10))
      ∧ ((p.idx_scan = 0 ∧ p.seq_scan > 100) ∨ p.seq_scan > p.idx_scan * 10))
    ∧ (get_query_performance_issues rows).length ≤ 15
    ∧ List.Pairwise (fun a b => b.seq_scan ≤ a.seq_scan)
        (get_query_performance_issues rows) := by
  refine ⟨?_, List.length_take_le _ _,
    List.Pairwise.sublist (List.take_sublist _ _) (pairwise_sortBySeqDesc _)⟩
  intro p hp
  have hp' := List.take_subset _ _ hp
  rw [mem_sortBySeqDesc] at hp'
  rcases List.mem_map.mp hp' with ⟨t, ht, rfl⟩
  have hfil := (List.mem_filter.mp ht).2
  rw [perfFilter, decide_eq_true_iff] at hfil
  have e1 : (perfRowOf t).issue_type = issueType t := rfl
  have e2 : (perfRowOf t).idx_scan = t.idx_scan := rfl
  have e3 : (perfRowOf t).seq_scan = t.seq_scan := rfl
  rw [e1, e2, e3]
  exact ⟨issueType_missing_iff t, issueType_full_iff t, hfil⟩

/-- C5 witness: `(idx_scan = 0, seq_scan = 150)` is `MISSING_INDEX`,
`(seq_scan = 50, idx_scan = 4)` is `FULL_TABLE_SCANS`, and
`(seq_scan = 10, idx_scan = 5)` is absent from the result, which comes out
ordered by `seq_scan` descending. -/
theorem c5_witness :
    get_query_performance_issues
        [⟨"public", "t1", 150, 0, "1 MB"⟩,
         ⟨"public", "t2", 50, 4, "2 MB"⟩,
         ⟨"public", "t3", 10, 5, "3 MB"⟩]
      = [⟨"public", "t1", 150, 150, 0, "MISSING_INDEX", "1 MB"⟩,
         ⟨"public", "t2", 46, 50, 4, "FULL_TABLE_SCANS", "2 MB"⟩]
    ∧ ((⟨"public", "t1", 150, 150, 0, "MISSING_INDEX", "1 MB"⟩ : PerfRow).issue_type
          = "MISSING_INDEX"
        ↔ ((⟨"public", "t1", 150, 150, 0, "MISSING_INDEX", "1 MB"⟩ : PerfRow).idx_scan = 0
           ∧ (⟨"public", "t1", 150, 150, 0, "MISSING_INDEX", "1 MB"⟩ : PerfRow).seq_scan
               > 100)) :=
  ⟨by decide,
   ( ( c5_theorem
      [⟨"public", "t1", 150, 0, "1 MB"⟩,
       ⟨"public", "t2", 50, 4, "2 MB"⟩,
       ⟨"public", "t3", 10, 5, "3 MB"⟩]).1
      ⟨"public", "t1", 150, 150, 0, "MISSING_INDEX", "1 MB"⟩ (by decide)).1⟩

/-- Server configuration dataclass (`ServerConfig` in the source). -/
structure ServerConfig where
  name : String
  host : String
  database : String
  user : String
  password : String
  port : Int
deriving DecidableEq, Repr

/-- Row of `get_database_size`. -/
structure SizeRow where
  database_size : String
  database_size_bytes : Int
deriving DecidableEq, Repr

/-- Row of `get_table_count_and_stats`; the rounded averages are scale-0
numerics, nullable when there are no user tables. -/
structure TblRow where
  total_tables : Int
  avg_rows_per_table : Option Int
  max_rows_in_table : Option Int
  avg_dead_rows : Option Int
  total_dead_rows : Option Int
deriving DecidableEq, Repr

/-- Row of `get_lock_stats`. -/
structure LockRow where
  blocked_locks : Int
  active_locks : Int
  waiting_queries : Int
deriving DecidableEq, Repr

/-- Row of `get_active_queries`; `duration_sec` is a scale-2 numeric in
hundredths. -/
structure ActiveRow where
  pid : Int
  usename : String
  state : String
  duration_sec : Option Int
  query_snippet : String
deriving DecidableEq, Repr

/-- Row of `get_longest_queries`; `duration_hours` is a scale-2 numeric in
hundredths. -/
structure LongRow where
  pid : Int
  usename : String
  duration_hours : Option Int
  query_snippet : String
deriving DecidableEq, Repr

/-- Row of `get_table_bloat`; `dead_rows_percent` in hundredths. -/
structure BloatRow where
  schemaname : String
  table_name : String
  live_rows : Int
  dead_rows : Int
  dead_rows_percent : Option Int
  table_size : String
deriving DecidableEq, Repr

/-- Row of `get_autovacuum_stats`; timestamps kept in rendered form,
nullable. -/
structure VacRow where
  schemaname : String
  table_name : String
  last_vacuum : Option String
  last_autovacuum : Option String
  last_analyze : Option String
  last_autoanalyze : Option String
  vacuum_count : Int
  autovacuum_count : Int
  analyze_count : Int
  autoanalyze_count : Int
deriving DecidableEq, Repr

/-- Row of `get_memory_stats`. -/
structure MemRow where
  shared_buffers : String
  effective_cache_size : String
  work_mem : String
  maintenance_work_mem : String
  shared_buffers_level : String
deriving DecidableEq, Repr

/-- Everything `generate_markdown_report` collects from one server, one
field per diagnostic query; scalar categories carry the `result[0] if
result else {}` row, list categories the full row list. -/
structure ServerData where
  version : Option VersionRow
  conns : Option ConnRow
  cache : Option CacheRow
  size : Option SizeRow
  tables : Option TblRow
  indexes : Option IdxRow
  locks : Option LockRow
  active : List ActiveRow
  longest : List LongRow
  bloat : List BloatRow
  perf : List PerfRow
  vacuum : List VacRow
  memory : Option MemRow
deriving DecidableEq, Repr

/-- One pipe-delimited table line (model of the `tabulate` library's
markdown row rendering). -/
def mkRow (cells : List String) : String := "| " ++ (pyJoin " | " cells ++ " |")

/-- Model of the external `tabulate(..., tablefmt="markdown")` call: a
pipe-delimited grid of header row, separator row, and data rows. -/
def tabulate (headers : List String) (rows : List (List String)) : String :=
  pyJoin "\n" (mkRow headers :: mkRow (headers.map (fun _ => "---")) :: rows.map mkRow)

/-- The `version_table` rows of `generate_markdown_report`. -/
def version_table (v1 v2 : Option VersionRow) : List (List String) :=
  [["PostgreSQL Version", pyGet v1 (fun r => r.pg_version), pyGet v2 (fun r => r.pg_version)],
   ["Max Connections", pyGet v1 (fun r => toString r.max_connections),
     pyGet v2 (fun r => toString r.max_connections)],
   ["Shared Buffers", pyGet v1 (fun r => r.shared_buffers), pyGet v2 (fun r => r.shared_buffers)],
   ["Effective Cache Size", pyGet v1 (fun r => r.effective_cache_size),
     pyGet v2 (fun r => r.effective_cache_size)],
   ["Work Memory", pyGet v1 (fun r => r.work_mem), pyGet v2 (fun r => r.work_mem)],
   ["Random Page Cost", pyGet v1 (fun r => r.random_page_cost),
     pyGet v2 (fun r => r.random_page_cost)],
   ["Effective IO Concurrency", pyGet v1 (fun r => toString r.effective_io_concurrency),
     pyGet v2 (fun r => toString r.effective_io_concurrency)],
   ["Synchronous Commit", pyGet v1 (fun r => r.synchronous_commit),
     pyGet v2 (fun r => r.synchronous_commit)]]

/-- The `conn_table` rows. -/
def conn_table (c1 c2 : Option ConnRow) : List (List String) :=
  [["Current Connections", pyGet c1 (fun r => toString r.current_connections),
     pyGet c2 (fun r => toString r.current_connections)],
   ["Max Connections", pyGet c1 (fun r => toString r.max_connections),
     pyGet c2 (fun r => toString r.max_connections)],
   ["Active Connections", pyGet c1 (fun r => toString r.active_connections),
     pyGet c2 (fun r => toString r.active_connections)],
   ["Idle Connections", pyGet c1 (fun r => toString r.idle_connections),
     pyGet c2 (fun r => toString r.idle_connections)],
   ["Connection Usage %", pyGet c1 (fun r => showOptInt r.connection_usage_percent) ++ "%",
     pyGet c2 (fun r => showOptInt r.connection_usage_percent) ++ "%"]]

/-- The `cache_table` rows. -/
def cache_table (cache1 cache2 : Option CacheRow) : List (List String) :=
  [["Heap Cache Hit %", pyGet cache1 (fun r => showOptDec2 r.cache_hit_percent) ++ "%",
     pyGet cache2 (fun r => showOptDec2 r.cache_hit_percent) ++ "%"],
   ["Index Cache Hit %", pyGet cache1 (fun r => showOptDec2 r.idx_cache_hit_percent) ++ "%",
     pyGet cache2 (fun r => showOptDec2 r.idx_cache_hit_percent) ++ "%"],
   ["Heap Blocks Read", pyGet cache1 (fun r => showOptInt r.heap_read),
     pyGet cache2 (fun r => showOptInt r.heap_read)],
   ["Heap Blocks Hit", pyGet cache1 (fun r => showOptInt r.heap_hit),
     pyGet cache2 (fun r => showOptInt r.heap_hit)]]

/-- The `size_table` rows. -/
def size_table (db1 db2 : Option SizeRow) : List (List String) :=
  [["Database Size", pyGet db1 (fun r => r.database_size), pyGet db2 (fun r => r.database_size)]]

/-- The `table_stats` rows. -/
def table_stats (t1 t2 : Option TblRow) : List (List String) :=
  [["Total Tables", pyGet t1 (fun r => toString r.total_tables),
     pyGet t2 (fun r => toString r.total_tables)],
   ["Avg Rows per Table", pyGet t1 (fun r => showOptInt r.avg_rows_per_table),
     pyGet t2 (fun r => showOptInt r.avg_rows_per_table)],
   ["Max Rows in Table", pyGet t1 (fun r => showOptInt r.max_rows_in_table),
     pyGet t2 (fun r => showOptInt r.max_rows_in_table)],
   ["Total Dead Rows", pyGet t1 (fun r => showOptInt r.total_dead_rows),
     pyGet t2 (fun r => showOptInt r.total_dead_rows)]]

/-- The `index_stats` rows. -/
def index_stats (i1 i2 : Option IdxRow) : List (List String) :=
  [["Total Indexes", pyGet i1 (fun r => toString r.total_indexes),
     pyGet i2 (fun r => toString r.total_indexes)],
   ["Unused Indexes", pyGet i1 (fun r => showOptInt r.unused_indexes),
     pyGet i2 (fun r => showOptInt r.unused_indexes)],
   ["Unused Indexes %", pyGet i1 (fun r => showOptDec2 r.unused_indexes_percent) ++ "%",
     pyGet i2 (fun r => showOptDec2 r.unused_indexes_percent) ++ "%"],
   ["Avg Index Scans", pyGet i1 (fun r => showOptDec2 r.avg_index_scans),
     pyGet i2 (fun r => showOptDec2 r.avg_index_scans)]]

/-- The `lock_stats` rows. -/
def lock_stats (l1 l2 : Option LockRow) : List (List String) :=
  [["Blocked Locks", pyGet l1 (fun r => toString r.blocked_locks),
     pyGet l2 (fun r => toString r.blocked_locks)],
   ["Active Locks", pyGet l1 (fun r => toString r.active_locks),
     pyGet l2 (fun r => toString r.active_locks)],
   ["Waiting Queries", pyGet l1 (fun r => toString r.waiting_queries),
     pyGet l2 (fun r => toString r.waiting_queries)]]

/-- The `mem_table` rows. -/
def mem_table (m1 m2 : Option MemRow) : List (List String) :=
  [["Shared Buffers", pyGet m1 (fun r => r.shared_buffers), pyGet m2 (fun r => r.shared_buffers)],
   ["Effective Cache Size", pyGet m1 (fun r => r.effective_cache_size),
     pyGet m2 (fun r => r.effective_cache_size)],
   ["Work Memory", pyGet m1 (fun r => r.work_mem), pyGet m2 (fun r => r.work_mem)],
   ["Maintenance Work Memory", pyGet m1 (fun r => r.maintenance_work_mem),
     pyGet m2 (fun r => r.maintenance_work_mem)]]

/-- Cells of one active-query row, `tabulate(..., headers="keys")` order. -/
def activeCells (r : ActiveRow) : List String :=
  [toString r.pid, r.usename, r.state, showOptDec2 r.duration_sec, r.query_snippet]

/-- Cells of one long-running-query row. -/
def longCells (r : LongRow) : List String :=
  [toString r.pid, r.usename, showOptDec2 r.duration_hours, r.query_snippet]

/-- Cells of one bloat row. -/
def bloatCells (r : BloatRow) : List String :=
  [r.schemaname, r.table_name, toString r.live_rows, toString r.dead_rows,
   showOptDec2 r.dead_rows_percent, r.table_size]

/-- Cells of one performance-issue row. -/
def perfCells (r : PerfRow) : List String :=
  [r.schemaname, r.table_name, toString r.seq_vs_idx_diff, toString r.seq_scan,
   toString r.idx_scan, r.issue_type, r.table_size]

/-- Cells of one autovacuum row. -/
def vacCells (r : VacRow) : List String :=
  [r.schemaname, r.table_name, showPyOpt r.last_vacuum, showPyOpt r.last_autovacuum,
   showPyOpt r.last_analyze, showPyOpt r.last_autoanalyze, toString r.vacuum_count,
   toString r.autovacuum_count, toString r.analyze_count, toString r.autoanalyze_count]

/-- Report title and timestamp lines. -/
def secTitle (now : String) : List String :=
  ["# PostgreSQL Comparative Diagnostic Report",
   "\n**Generated:** " ++ (now ++ "\n")]

/-- Server-identification section. -/
def secServerInfo (cfg1 cfg2 : ServerConfig) : List String :=
  ["## 📊 Server Information\n",
   "- **Server 1 (Fast):** " ++ (cfg1.host ++ (":" ++ (toString cfg1.port ++ ("/" ++ cfg1.database)))),
   "- **Server 2 (Slow):** " ++ (cfg2.host ++ (":" ++ (toString cfg2.port ++ ("/" ++ (cfg2.database ++ "\n")))))]

/-- Version/configuration section. -/
def secVersion (v1 v2 : Option VersionRow) : List String :=
  ["## 🔧 PostgreSQL Version & Configuration\n",
   tabulate ["Parameter", "Server 1", "Server 2"] (version_table v1 v2),
   "\n"]

/-- Connection-statistics section. -/
def secConns (c1 c2 : Option ConnRow) : List String :=
  ["## 🔌 Connection Statistics\n",
   tabulate ["Metric", "Server 1", "Server 2"] (conn_table c1 c2),
   "\n"]

/-- Cache-hit-ratio section. -/
def secCache (cache1 cache2 : Option CacheRow) : List String :=
  ["## 💾 Cache Hit Ratio (CRITICAL)\n",
   tabulate ["Metric", "Server 1", "Server 2"] (cache_table cache1 cache2),
   "\n> ⚠️ **Cache hit ratio should be >95%**. Lower values indicate missing indexes or insufficient memory.\n"]

/-- Database-size section. -/
def secSize (db1 db2 : Option SizeRow) : List String :=
  ["## 📦 Database Size\n",
   tabulate ["Metric", "Server 1", "Server 2"] (size_table db1 db2),
   "\n"]

/-- Table-statistics section. -/
def secTables (t1 t2 : Option TblRow) : List String :=
  ["## 📋 Table Statistics\n",
   tabulate ["Metric", "Server 1", "Server 2"] (table_stats t1 t2),
   "\n"]

/-- Index-statistics section. -/
def secIndexes (i1 i2 : Option IdxRow) : List String :=
  ["## 📑 Index Statistics\n",
   tabulate ["Metric", "Server 1", "Server 2"] (index_stats i1 i2),
   "\n"]

/-- Lock-statistics section. -/
def secLocks (l1 l2 : Option LockRow) : List String :=
  ["## 🔒 Lock Statistics\n",
   tabulate ["Metric", "Server 1", "Server 2"] (lock_stats l1 l2),
   "\n"]

/-- Active-queries section, with the per-server empty-list sentences. -/
def secActive (act1 act2 : List ActiveRow) : List String :=
  ["## ⚡ Active Queries Now\n"] ++
  (if act1.isEmpty then ["\n### Server 1: No active queries\n"]
   else ["\n### Server 1 (" ++ (toString act1.length ++ " active)\n"),
         tabulate ["pid", "usename", "state", "duration_sec", "query_snippet"]
           (act1.map activeCells)]) ++
  (if act2.isEmpty then ["\n### Server 2: No active queries\n"]
   else ["\n### Server 2 (" ++ (toString act2.length ++ " active)\n"),
         tabulate ["pid", "usename", "state", "duration_sec", "query_snippet"]
           (act2.map activeCells)]) ++
  ["\n"]

/-- Long-running-queries section. -/
def secLong (long1 long2 : List LongRow) : List String :=
  ["## ⏱️ Long Running Queries\n"] ++
  (if long1.isEmpty then ["\n### Server 1: No long running queries\n"]
   else ["\n### Server 1 (" ++ (toString long1.length ++ " queries)\n"),
         tabulate ["pid", "usename", "duration_hours", "query_snippet"]
           (long1.map longCells)]) ++
  (if long2.isEmpty then ["\n### Server 2: No long running queries\n"]
   else ["\n### Server 2 (" ++ (toString long2.length ++ " queries)\n"),
         tabulate ["pid", "usename", "duration_hours", "query_snippet"]
           (long2.map longCells)]) ++
  ["\n"]

/-- Table-bloat section. -/
def secBloat (bloat1 bloat2 : List BloatRow) : List String :=
  ["## 🗑️ Table Bloat (Dead Rows)\n"] ++
  (if bloat1.isEmpty then ["\n### Server 1: No significant table bloat\n"]
   else ["\n### Server 1 (Tables with >1000 dead rows: " ++ (toString bloat1.length ++ ")\n"),
         tabulate ["schemaname", "table_name", "live_rows", "dead_rows", "dead_rows_percent", "table_size"]
           (bloat1.map bloatCells)]) ++
  (if bloat2.isEmpty then ["\n### Server 2: No significant table bloat\n"]
   else ["\n### Server 2 (Tables with >1000 dead rows: " ++ (toString bloat2.length ++ ")\n"),
         tabulate ["schemaname", "table_name", "live_rows", "dead_rows", "dead_rows_percent", "table_size"]
           (bloat2.map bloatCells)]) ++
  ["\n"]

/-- Query-performance-issues section. -/
def secPerf (perf1 perf2 : List PerfRow) : List String :=
  ["## ⚠️ Query Performance Issues\n"] ++
  (if perf1.isEmpty then ["\n### Server 1: No query performance issues detected\n"]
   else ["\n### Server 1 (Issues found: " ++ (toString perf1.length ++ ")\n"),
         tabulate ["schemaname", "table_name", "seq_vs_idx_diff", "seq_scan", "idx_scan", "issue_type", "table_size"]
           (perf1.map perfCells)]) ++
  (if perf2.isEmpty then ["\n### Server 2: No query performance issues detected\n"]
   else ["\n### Server 2 (Issues found: " ++ (toString perf2.length ++ ")\n"),
         tabulate ["schemaname", "table_name", "seq_vs_idx_diff", "seq_scan", "idx_scan", "issue_type", "table_size"]
           (perf2.map perfCells)]) ++
  ["\n"]

/-- Autovacuum section: note there is no `else` branch in the source — an
empty list contributes nothing at all for that server; only the first five
rows are tabulated (`vac1[:5]`). -/
def secVacuum (vac1 vac2 : List VacRow) : List String :=
  ["## 🧹 Autovacuum Statistics\n"] ++
  (if vac1.isEmpty then []
   else ["\n### Server 1\n",
         tabulate ["schemaname", "table_name", "last_vacuum", "last_autovacuum", "last_analyze", "last_autoanalyze", "vacuum_count", "autovacuum_count", "analyze_count", "autoanalyze_count"]
           ((vac1.take 5).map vacCells)]) ++
  (if vac2.isEmpty then []
   else ["\n### Server 2\n",
         tabulate ["schemaname", "table_name", "last_vacuum", "last_autovacuum", "last_analyze", "last_autoanalyze", "vacuum_count", "autovacuum_count", "analyze_count", "autoanalyze_count"]
           ((vac2.take 5).map vacCells)]) ++
  ["\n"]

/-- Memory-configuration section. -/
def secMemory (m1 m2 : Option MemRow) : List String :=
  ["## 💾 Memory Configuration\n",
   tabulate ["Parameter", "Server 1", "Server 2"] (mem_table m1 m2),
   "\n"]

/-- Analysis-and-recommendations section. -/
def secRecs (v1 v2 : Option VersionRow) (cache1 cache2 : Option CacheRow)
    (c1 c2 : Option ConnRow) (idx1 idx2 : Option IdxRow) : List String :=
  ["## 🎯 Analysis & Recommendations\n\n",
   generate_recommendations v1 v2 cache1 cache2 c1 c2 idx1 idx2,
   "\n"]

/-- The full `report` list built by `generate_markdown_report`, append by
append in source order. -/
def generate_markdown_report_lines (cfg1 cfg2 : ServerConfig) (now : String)
    (d1 d2 : ServerData) : List String :=
  secTitle now ++ secServerInfo cfg1 cfg2 ++ secVersion d1.version d2.version ++
  secConns d1.conns d2.conns ++ secCache d1.cache d2.cache ++
  secSize d1.size d2.size ++ secTables d1.tables d2.tables ++
  secIndexes d1.indexes d2.indexes ++ secLocks d1.locks d2.locks ++
  secActive d1.active d2.active ++ secLong d1.longest d2.longest ++
  secBloat d1.bloat d2.bloat ++ secPerf d1.perf d2.perf ++
  secVacuum d1.vacuum d2.vacuum ++ secMemory d1.memory d2.memory ++
  secRecs d1.version d2.version d1.cache d2.cache d1.conns d2.conns d1.indexes d2.indexes

/-- Return value of `generate_markdown_report`: the lines joined with
newlines. -/
def generate_markdown_report (cfg1 cfg2 : ServerConfig) (now : String)
    (d1 d2 : ServerData) : String :=
  pyJoin "\n" (generate_markdown_report_lines cfg1 cfg2 now d1 d2)

/-- A report element opens a section exactly when it starts with the
markdown second-level header marker. -/
def isSectionHeader (s : String) : Bool :=
  decide (s.data.take 3 = ['#', '#', ' '])

lemma foldl_app_pfx (sep : String) (as : List String) :
    ∀ acc : String, ∃ t, as.foldl (fun acc x => acc ++ sep ++ x) acc = acc ++ t := by
  induction as with
  | nil =>
    intro acc
    refine ⟨"", ?_⟩
    apply String.ext
    simp [String.data_append]
  | cons x xs ih =>
    intro acc
    obtain ⟨t, ht⟩ := ih (acc ++ sep ++ x)
    refine ⟨sep ++ (x ++ t), ?_⟩
    rw [List.foldl_cons, ht]
    apply String.ext
    simp [String.data_append]

lemma pyJoin_head (sep a : String) (as : List String) :
    ∃ t, pyJoin sep (a :: as) = a ++ t := by
  unfold pyJoin
  exact foldl_app_pfx sep as a

lemma ish_append (p s : String) (hlen : 3 ≤ p.data.length)
    (hp : isSectionHeader p = false) : isSectionHeader (p ++ s) = false := by
  unfold isSectionHeader at hp ⊢
  rw [data_take_append p s 3 hlen]
  exact hp

lemma ish_ne_first (s : String) (c : Char) (hc : c ≠ '#')
    (h : s.data.take 1 = [c]) : isSectionHeader s = false := by
  unfold isSectionHeader
  rw [decide_eq_false_iff_not]
  intro h3
  have h2 : (s.data.take 3).take 1 = ['#'] := by
    rw [h3]
    rfl
  rw [List.take_take, show min 1 3 = 1 from rfl, h] at h2
  exact hc (by injection h2)

lemma take1_append_left (p s : String) (c : Char) (h : p.data.take 1 = [c]) :
    (p ++ s).data.take 1 = [c] := by
  have hl : 1 ≤ p.data.length := by
    cases hm : p.data with
    | nil => rw [hm] at h; simp at h
    | cons a l => simp
  rw [String.data_append, List.take_append_of_le_length hl, h]

lemma take1_mkRow (cells : List String) : (mkRow cells).data.take 1 = ['|'] := by
  unfold mkRow
  rw [String.data_append,
    List.take_append_of_le_length (show 1 ≤ ("| ").data.length by decide)]
  decide

lemma ish_pyJoin_cons (sep a : String) (as : List String) (c : Char) (hc : c ≠ '#')
    (h : a.data.take 1 = [c]) : isSectionHeader (pyJoin sep (a :: as)) = false := by
  obtain ⟨t, ht⟩ := pyJoin_head sep a as
  rw [ht]
  exact ish_ne_first _ c hc (take1_append_left a t c h)

lemma ish_tabulate (hs : List String) (rs : List (List String)) :
    isSectionHeader (tabulate hs rs) = false := by
  unfold tabulate
  exact ish_pyJoin_cons "\n" _ _ '|' (by decide) (take1_mkRow hs)

lemma take1_cacheCritLine (d : Int) : (cacheCritLine d).data.take 1 = ['❌'] := by
  unfold cacheCritLine
  rw [String.data_append, String.data_append, List.append_assoc,
    List.take_append_of_le_length
      (show 1 ≤ ("❌ **Cache Hit Ratio**: Server 2 has ").data.length by decide)]
  decide

lemma ish_genRecs (v1 v2 : Option VersionRow) (cache1 cache2 : Option CacheRow)
    (c1 c2 : Option ConnRow) (idx1 idx2 : Option IdxRow) :
    isSectionHeader (generate_recommendations v1 v2 cache1 cache2 c1 c2 idx1 idx2)
      = false := by
  unfold generate_recommendations
  rw [grl_eq]
  unfold cacheRecOf
  split
  · simp only [List.cons_append, List.nil_append, List.append_assoc]
    exact ish_pyJoin_cons "\n" _ _ '❌' (by decide) (take1_cacheCritLine _)
  · simp only [List.cons_append, List.nil_append, List.append_assoc]
    exact ish_pyJoin_cons "\n" _ _ '✅' (by decide) (by decide)

lemma filter_secTitle (now : String) : (secTitle now).filter isSectionHeader = [] := by
  have h1 : isSectionHeader "# PostgreSQL Comparative Diagnostic Report" = false := by decide
  have h2 : isSectionHeader ("\n**Generated:** " ++ (now ++ "\n")) = false :=
    ish_append _ _ (by decide) (by decide)
  simp [secTitle, List.filter_cons, h1, h2]

lemma filter_secServerInfo (cfg1 cfg2 : ServerConfig) :
    (secServerInfo cfg1 cfg2).filter isSectionHeader = ["## 📊 Server Information\n"] := by
  have h1 : isSectionHeader "## 📊 Server Information\n" = true := by decide
  have h2 : isSectionHeader
      ("- **Server 1 (Fast):** " ++ (cfg1.host ++ (":" ++ (toString cfg1.port ++ ("/" ++ cfg1.database)))))
        = false :=
    ish_append _ _ (by decide) (by decide)
  have h3 : isSectionHeader
      ("- **Server 2 (Slow):** " ++ (cfg2.host ++ (":" ++ (toString cfg2.port ++ ("/" ++ (cfg2.database ++ "\n"))))))
        = false :=
    ish_append _ _ (by decide) (by decide)
  simp [secServerInfo, List.filter_cons, h1, h2, h3]

lemma filter_secVersion (v1 v2 : Option VersionRow) :
    (secVersion v1 v2).filter isSectionHeader
      = ["## 🔧 PostgreSQL Version & Configuration\n"] := by
  have h1 : isSectionHeader "## 🔧 PostgreSQL Version & Configuration\n" = true := by decide
  have h2 := ish_tabulate ["Parameter", "Server 1", "Server 2"] (version_table v1 v2)
  have h3 : isSectionHeader "\n" = false := by decide
  simp [secVersion, List.filter_cons, h1, h2, h3]

lemma filter_secConns (c1 c2 : Option ConnRow) :
    (secConns c1 c2).filter isSectionHeader = ["## 🔌 Connection Statistics\n"] := by
  have h1 : isSectionHeader "## 🔌 Connection Statistics\n" = true := by decide
  have h2 := ish_tabulate ["Metric", "Server 1", "Server 2"] (conn_table c1 c2)
  have h3 : isSectionHeader "\n" = false := by decide
  simp [secConns, List.filter_cons, h1, h2, h3]

lemma filter_secCache (cache1 cache2 : Option CacheRow) :
    (secCache cache1 cache2).filter isSectionHeader = ["## 💾 Cache Hit Ratio (CRITICAL)\n"] := by
  have h1 : isSectionHeader "## 💾 Cache Hit Ratio (CRITICAL)\n" = true := by decide
  have h2 := ish_tabulate ["Metric", "Server 1", "Server 2"] (cache_table cache1 cache2)
  have h3 : isSectionHeader "\n> ⚠️ **Cache hit ratio should be >95%**. Lower values indicate missing indexes or insufficient memory.\n" = false := by decide
  simp [secCache, List.filter_cons, h1, h2, h3]

lemma filter_secSize (db1 db2 : Option SizeRow) :
    (secSize db1 db2).filter isSectionHeader = ["## 📦 Database Size\n"] := by
  have h1 : isSectionHeader "## 📦 Database Size\n" = true := by decide
  have h2 := ish_tabulate ["Metric", "Server 1", "Server 2"] (size_table db1 db2)
  have h3 : isSectionHeader "\n" = false := by decide
  simp [secSize, List.filter_cons, h1, h2, h3]

lemma filter_secTables (t1 t2 : Option TblRow) :
    (secTables t1 t2).filter isSectionHeader = ["## 📋 Table Statistics\n"] := by
  have h1 : isSectionHeader "## 📋 Table Statistics\n" = true := by decide
  have h2 := ish_tabulate ["Metric", "Server 1", "Server 2"] (table_stats t1 t2)
  have h3 : isSectionHeader "\n" = false := by decide
  simp [secTables, List.filter_cons, h1, h2, h3]

lemma filter_secIndexes (i1 i2 : Option IdxRow) :
    (secIndexes i1 i2).filter isSectionHeader = ["## 📑 Index Statistics\n"] := by
  have h1 : isSectionHeader "## 📑 Index Statistics\n" = true := by decide
  have h2 := ish_tabulate ["Metric", "Server 1", "Server 2"] (index_stats i1 i2)
  have h3 : isSectionHeader "\n" = false := by decide
  simp [secIndexes, List.filter_cons, h1, h2, h3]

lemma filter_secLocks (l1 l2 : Option LockRow) :
    (secLocks l1 l2).filter isSectionHeader = ["## 🔒 Lock Statistics\n"] := by
  have h1 : isSectionHeader "## 🔒 Lock Statistics\n" = true := by decide
  have h2 := ish_tabulate ["Metric", "Server 1", "Server 2"] (lock_stats l1 l2)
  have h3 : isSectionHeader "\n" = false := by decide
  simp [secLocks, List.filter_cons, h1, h2, h3]

lemma filter_secActive (a1 a2 : List ActiveRow) :
    (secActive a1 a2).filter isSectionHeader = ["## ⚡ Active Queries Now\n"] := by
  have h1 : isSectionHeader "## ⚡ Active Queries Now\n" = true := by decide
  have hn : isSectionHeader "\n" = false := by decide
  have hs1 : isSectionHeader "\n### Server 1: No active queries\n" = false := by decide
  have hs2 : isSectionHeader "\n### Server 2: No active queries\n" = false := by decide
  have hv1 : isSectionHeader ("\n### Server 1 (" ++ (toString a1.length ++ " active)\n")) = false :=
    ish_append _ _ (by decide) (by decide)
  have hv2 : isSectionHeader ("\n### Server 2 (" ++ (toString a2.length ++ " active)\n")) = false :=
    ish_append _ _ (by decide) (by decide)
  have ht1 := ish_tabulate ["pid", "usename", "state", "duration_sec", "query_snippet"] (a1.map activeCells)
  have ht2 := ish_tabulate ["pid", "usename", "state", "duration_sec", "query_snippet"] (a2.map activeCells)
  cases a1 <;> cases a2 <;>
    simp_all [secActive, List.filter_append, List.filter_cons]

lemma filter_secLong (a1 a2 : List LongRow) :
    (secLong a1 a2).filter isSectionHeader = ["## ⏱️ Long Running Queries\n"] := by
  have h1 : isSectionHeader "## ⏱️ Long Running Queries\n" = true := by decide
  have hn : isSectionHeader "\n" = false := by decide
  have hs1 : isSectionHeader "\n### Server 1: No long running queries\n" = false := by decide
  have hs2 : isSectionHeader "\n### Server 2: No long running queries\n" = false := by decide
  have hv1 : isSectionHeader ("\n### Server 1 (" ++ (toString a1.length ++ " queries)\n")) = false :=
    ish_append _ _ (by decide) (by decide)
  have hv2 : isSectionHeader ("\n### Server 2 (" ++ (toString a2.length ++ " queries)\n")) = false :=
    ish_append _ _ (by decide) (by decide)
  have ht1 := ish_tabulate ["pid", "usename", "duration_hours", "query_snippet"] (a1.map longCells)
  have ht2 := ish_tabulate ["pid", "usename", "duration_hours", "query_snippet"] (a2.map longCells)
  cases a1 <;> cases a2 <;>
    simp_all [secLong, List.filter_append, List.filter_cons]

lemma filter_secBloat (a1 a2 : List BloatRow) :
    (secBloat a1 a2).filter isSectionHeader = ["## 🗑️ Table Bloat (Dead Rows)\n"] := by
  have h1 : isSectionHeader "## 🗑️ Table Bloat (Dead Rows)\n" = true := by decide
  have hn : isSectionHeader "\n" = false := by decide
  have hs1 : isSectionHeader "\n### Server 1: No significant table bloat\n" = false := by decide
  have hs2 : isSectionHeader "\n### Server 2: No significant table bloat\n" = false := by decide
  have hv1 : isSectionHeader
      ("\n### Server 1 (Tables with >1000 dead rows: " ++ (toString a1.length ++ ")\n")) = false :=
    ish_append _ _ (by decide) (by decide)
  have hv2 : isSectionHeader
      ("\n### Server 2 (Tables with >1000 dead rows: " ++ (toString a2.length ++ ")\n")) = false :=
    ish_append _ _ (by decide) (by decide)
  have ht1 := ish_tabulate ["schemaname", "table_name", "live_rows", "dead_rows", "dead_rows_percent", "table_size"] (a1.map bloatCells)
  have ht2 := ish_tabulate ["schemaname", "table_name", "live_rows", "dead_rows", "dead_rows_percent", "table_size"] (a2.map bloatCells)
  cases a1 <;> cases a2 <;>
    simp_all [secBloat, List.filter_append, List.filter_cons]

lemma filter_secPerf (a1 a2 : List PerfRow) :
    (secPerf a1 a2).filter isSectionHeader = ["## ⚠️ Query Performance Issues\n"] := by
  have h1 : isSectionHeader "## ⚠️ Query Performance Issues\n" = true := by decide
  have hn : isSectionHeader "\n" = false := by decide
  have hs1 : isSectionHeader "\n### Server 1: No query performance issues detected\n" = false := by decide
  have hs2 : isSectionHeader "\n### Server 2: No query performance issues detected\n" = false := by decide
  have hv1 : isSectionHeader ("\n### Server 1 (Issues found: " ++ (toString a1.length ++ ")\n")) = false :=
    ish_append _ _ (by decide) (by decide)
  have hv2 : isSectionHeader ("\n### Server 2 (Issues found: " ++ (toString a2.length ++ ")\n")) = false :=
    ish_append _ _ (by decide) (by decide)
  have ht1 := ish_tabulate ["schemaname", "table_name", "seq_vs_idx_diff", "seq_scan", "idx_scan", "issue_type", "table_size"] (a1.map perfCells)
  have ht2 := ish_tabulate ["schemaname", "table_name", "seq_vs_idx_diff", "seq_scan", "idx_scan", "issue_type", "table_size"] (a2.map perfCells)
  cases a1 <;> cases a2 <;>
    simp_all [secPerf, List.filter_append, List.filter_cons]

lemma filter_secVacuum (a1 a2 : List VacRow) :
    (secVacuum a1 a2).filter isSectionHeader = ["## 🧹 Autovacuum Statistics\n"] := by
  have h1 : isSectionHeader "## 🧹 Autovacuum Statistics\n" = true := by decide
  have hn : isSectionHeader "\n" = false := by decide
  have hs1 : isSectionHeader "\n### Server 1\n" = false := by decide
  have hs2 : isSectionHeader "\n### Server 2\n" = false := by decide
  have ht1 := ish_tabulate ["schemaname", "table_name", "last_vacuum", "last_autovacuum", "last_analyze", "last_autoanalyze", "vacuum_count", "autovacuum_count", "analyze_count", "autoanalyze_count"] ((a1.take 5).map vacCells)
  have ht2 := ish_tabulate ["schemaname", "table_name", "last_vacuum", "last_autovacuum", "last_analyze", "last_autoanalyze", "vacuum_count", "autovacuum_count", "analyze_count", "autoanalyze_count"] ((a2.take 5).map vacCells)
  cases a1 <;> cases a2 <;>
    simp_all [secVacuum, List.filter_append, List.filter_cons]

lemma filter_secMemory (m1 m2 : Option MemRow) :
    (secMemory m1 m2).filter isSectionHeader = ["## 💾 Memory Configuration\n"] := by
  have h1 : isSectionHeader "## 💾 Memory Configuration\n" = true := by decide
  have h2 := ish_tabulate ["Parameter", "Server 1", "Server 2"] (mem_table m1 m2)
  have h3 : isSectionHeader "\n" = false := by decide
  simp [secMemory, List.filter_cons, h1, h2, h3]

lemma filter_secRecs (v1 v2 : Option VersionRow) (cache1 cache2 : Option CacheRow)
    (c1 c2 : Option ConnRow) (idx1 idx2 : Option IdxRow) :
    (secRecs v1 v2 cache1 cache2 c1 c2 idx1 idx2).filter isSectionHeader
      = ["## 🎯 Analysis & Recommendations\n\n"] := by
  have h1 : isSectionHeader "## 🎯 Analysis & Recommendations\n\n" = true := by decide
  have h2 := ish_genRecs v1 v2 cache1 cache2 c1 c2 idx1 idx2
  have h3 : isSectionHeader "\n" = false := by decide
  simp [secRecs, List.filter_cons, h1, h2, h3]

/-- The fixed sequence of the fifteen second-level section headers, in the
order `generate_markdown_report` appends them. -/
def sectionHeaders : List String :=
  ["## 📊 Server Information\n", "## 🔧 PostgreSQL Version & Configuration\n",
   "## 🔌 Connection Statistics\n", "## 💾 Cache Hit Ratio (CRITICAL)\n",
   "## 📦 Database Size\n", "## 📋 Table Statistics\n", "## 📑 Index Statistics\n",
   "## 🔒 Lock Statistics\n", "## ⚡ Active Queries Now\n", "## ⏱️ Long Running Queries\n",
   "## 🗑️ Table Bloat (Dead Rows)\n", "## ⚠️ Query Performance Issues\n",
   "## 🧹 Autovacuum Statistics\n", "## 💾 Memory Configuration\n",
   "## 🎯 Analysis & Recommendations\n\n"]

/-- C6.  Confirmed: whatever the two servers' data, the elements of the
report that open a section are exactly the fifteen fixed headers, in the
fixed order of the claim — so the section sequence is a constant of the
renderer, identical across runs and independent of the data (the renderer is
a pure function of its arguments; no dictionary iteration order is
involved). -/
theorem c6_theorem (cfg1 cfg2 : ServerConfig) (now : String) (d1 d2 : ServerData) :
    (generate_markdown_report_lines cfg1 cfg2 now d1 d2).filter isSectionHeader
      = sectionHeaders := by
  unfold generate_markdown_report_lines
  simp only [List.filter_append]
  rw [filter_secTitle, filter_secServerInfo, filter_secVersion, filter_secConns,
    filter_secCache, filter_secSize, filter_secTables, filter_secIndexes,
    filter_secLocks, filter_secActive, filter_secLong, filter_secBloat,
    filter_secPerf, filter_secVacuum, filter_secMemory, filter_secRecs]
  rfl

/-- The `execute_query` wrapper: a failure is swallowed and yields the empty
row list (the `except` branch returns `[]`); a successful query yields its
rows. -/
def execute_query (res : Except String (List α)) : List α :=
  match res with
  | Except.error _ => []
  | Except.ok rows => rows

/-- `get_version_info`: `result[0] if result else {}` over the query
outcome, the empty dict modelled as `none`. -/
def get_version_info (res : Except String (List VersionRow)) : Option VersionRow :=
  (execute_query res).head?

/-- C7.  Confirmed for the cited category: a failed query yields the empty
result (`[]`, hence `{}` after the scalar projection), the version table
then renders every server-1 cell as the `N/A` placeholder, and the report is
still produced in full — its final recommendations section is present no
matter what data is missing. -/
theorem c7_theorem (e : String) :
    execute_query (Except.error e : Except String (List VersionRow)) = []
    ∧ get_version_info (Except.error e) = none
    ∧ (∀ v2 : Option VersionRow,
        ∀ row ∈ version_table (get_version_info (Except.error e)) v2,
          row.getD 1 "" = "N/A")
    ∧ (∀ (cfg1 cfg2 : ServerConfig) (now : String) (d1 d2 : ServerData),
        d1.version = none →
        "## 🎯 Analysis & Recommendations\n\n"
          ∈ generate_markdown_report_lines cfg1 cfg2 now d1 d2) := by
  refine ⟨rfl, rfl, ?_, ?_⟩
  · intro v2 row hrow
    have hv : get_version_info (Except.error e) = none := rfl
    rw [hv] at hrow
    simp only [version_table, List.mem_cons, List.not_mem_nil, or_false] at hrow
    rcases hrow with h | h | h | h | h | h | h | h <;> subst h <;> rfl
  · intro cfg1 cfg2 now d1 d2 _
    unfold generate_markdown_report_lines secRecs
    simp [List.mem_append]

/-- C7 witness: a concrete transport error leaves the version category
empty, the first version row's server-1 cell reads `N/A`, and the report of
a run where every category came back empty still carries its final
section. -/
theorem c7_witness :
    execute_query (Except.error "permission denied" : Except String (List VersionRow)) = []
    ∧ get_version_info (Except.error "permission denied") = none
    ∧ (List.getD (version_table (get_version_info (Except.error "permission denied")) none) 0 []).getD 1 ""
        = "N/A"
    ∧ "## 🎯 Analysis & Recommendations\n\n"
        ∈ generate_markdown_report_lines
            ⟨"Server1-Fast", "fast.example.com", "mydb", "admin", "pw1", 5432⟩
            ⟨"Server2-Slow", "slow.example.com", "mydb", "admin", "pw2", 5432⟩
            "2026-10-12 00:00:00"
            ⟨none, none, none, none, none, none, none, [], [], [], [], [], none⟩
            ⟨none, none, none, none, none, none, none, [], [], [], [], [], none⟩ :=
  ⟨( c7_theorem "permission denied").1,
   ( c7_theorem "permission denied").2.1,
   ( c7_theorem "permission denied").2.2.1 none _ (by decide),
   ( c7_theorem "permission denied").2.2.2 _ _ _ _ _ rfl⟩

/-- C8.  The claim holds for four of the five list categories — active
queries, long-running queries, bloat and performance issues each render a
fixed per-server "no data" sentence when their list is empty — but fails for
autovacuum: that section has no `else` branch, so an empty autovacuum list
renders nothing at all (the section header is immediately followed by the
blank line closing the section).  This theorem proves the amended claim. -/
theorem c8_theorem (cfg1 cfg2 : ServerConfig) (now : String) (d1 d2 : ServerData) :
    (d1.active = [] →
      "\n### Server 1: No active queries\n"
        ∈ generate_markdown_report_lines cfg1 cfg2 now d1 d2)
    ∧ (d2.active = [] →
      "\n### Server 2: No active queries\n"
        ∈ generate_markdown_report_lines cfg1 cfg2 now d1 d2)
    ∧ (d1.longest = [] →
      "\n### Server 1: No long running queries\n"
        ∈ generate_markdown_report_lines cfg1 cfg2 now d1 d2)
    ∧ (d2.longest = [] →
      "\n### Server 2: No long running queries\n"
        ∈ generate_markdown_report_lines cfg1 cfg2 now d1 d2)
    ∧ (d1.bloat = [] →
      "\n### Server 1: No significant table bloat\n"
        ∈ generate_markdown_report_lines cfg1 cfg2 now d1 d2)
    ∧ (d2.bloat = [] →
      "\n### Server 2: No significant table bloat\n"
        ∈ generate_markdown_report_lines cfg1 cfg2 now d1 d2)
    ∧ (d1.perf = [] →
      "\n### Server 1: No query performance issues detected\n"
        ∈ generate_markdown_report_lines cfg1 cfg2 now d1 d2)
    ∧ (d2.perf = [] →
      "\n### Server 2: No query performance issues detected\n"
        ∈ generate_markdown_report_lines cfg1 cfg2 now d1 d2)
    ∧ (d1.vacuum = [] → d2.vacuum = [] →
       List.IsInfix ["## 🧹 Autovacuum Statistics\n", "\n"]
         (generate_markdown_report_lines cfg1 cfg2 now d1 d2)) := by
  refine ⟨?_, ?_, ?_, ?_, ?_, ?_, ?_, ?_, ?_⟩
  case _ =>
    intro h
    have hx : "\n### Server 1: No active queries\n" ∈ secActive d1.active d2.active := by
      rw [h]
      simp [secActive]
    simp only [generate_markdown_report_lines, List.mem_append]
    tauto
  case _ =>
    intro h
    have hx : "\n### Server 2: No active queries\n" ∈ secActive d1.active d2.active := by
      rw [h]
      simp [secActive]
    simp only [generate_markdown_report_lines, List.mem_append]
    tauto
  case _ =>
    intro h
    have hx : "\n### Server 1: No long running queries\n" ∈ secLong d1.longest d2.longest := by
      rw [h]
      simp [secLong]
    simp only [generate_markdown_report_lines, List.mem_append]
    tauto
  case _ =>
    intro h
    have hx : "\n### Server 2: No long running queries\n" ∈ secLong d1.longest d2.longest := by
      rw [h]
      simp [secLong]
    simp only [generate_markdown_report_lines, List.mem_append]
    tauto
  case _ =>
    intro h
    have hx : "\n### Server 1: No significant table bloat\n" ∈ secBloat d1.bloat d2.bloat := by
      rw [h]
      simp [secBloat]
    simp only [generate_markdown_report_lines, List.mem_append]
    tauto
  case _ =>
    intro h
    have hx : "\n### Server 2: No significant table bloat\n" ∈ secBloat d1.bloat d2.bloat := by
      rw [h]
      simp [secBloat]
    simp only [generate_markdown_report_lines, List.mem_append]
    tauto
  case _ =>
    intro h
    have hx : "\n### Server 1: No query performance issues detected\n" ∈ secPerf d1.perf d2.perf := by
      rw [h]
      simp [secPerf]
    simp only [generate_markdown_report_lines, List.mem_append]
    tauto
  case _ =>
    intro h
    have hx : "\n### Server 2: No query performance issues detected\n" ∈ secPerf d1.perf d2.perf := by
      rw [h]
      simp [secPerf]
    simp only [generate_markdown_report_lines, List.mem_append]
    tauto
  case _ =>
    intro h1 h2
    refine ⟨secTitle now ++ secServerInfo cfg1 cfg2 ++ secVersion d1.version d2.version ++
      secConns d1.conns d2.conns ++ secCache d1.cache d2.cache ++
      secSize d1.size d2.size ++ secTables d1.tables d2.tables ++
      secIndexes d1.indexes d2.indexes ++ secLocks d1.locks d2.locks ++
      secActive d1.active d2.active ++ secLong d1.longest d2.longest ++
      secBloat d1.bloat d2.bloat ++ secPerf d1.perf d2.perf,
      secMemory d1.memory d2.memory ++
      secRecs d1.version d2.version d1.cache d2.cache d1.conns d2.conns d1.indexes d2.indexes,
      ?_⟩
    unfold generate_markdown_report_lines
    rw [secVacuum, h1, h2]
    simp [List.append_assoc]

/-- C8 counterexample to the claim as stated: in a run where every list
category is empty, the per-server subsection lines of the report are exactly
the eight fixed "no data" sentences of the active-queries, long-running,
bloat and performance-issues sections — none exists for autovacuum, whose
header is immediately followed by the closing blank line (nothing at all is
rendered for either server). -/
theorem c8_counterexample :
    (generate_markdown_report_lines
        ⟨"Server1-Fast", "fast.example.com", "mydb", "admin", "pw1", 5432⟩
        ⟨"Server2-Slow", "slow.example.com", "mydb", "admin", "pw2", 5432⟩
        "2026-10-12 00:00:00"
        ⟨none, none, none, none, none, none, none, [], [], [], [], [], none⟩
        ⟨none, none, none, none, none, none, none, [], [], [], [], [], none⟩).filter
          (fun s => decide (s.data.take 5 = ['\n', '#', '#', '#', ' ']))
      = ["\n### Server 1: No active queries\n", "\n### Server 2: No active queries\n",
         "\n### Server 1: No long running queries\n", "\n### Server 2: No long running queries\n",
         "\n### Server 1: No significant table bloat\n", "\n### Server 2: No significant table bloat\n",
         "\n### Server 1: No query performance issues detected\n",
         "\n### Server 2: No query performance issues detected\n"]
    ∧ List.IsInfix ["## 🧹 Autovacuum Statistics\n", "\n", "## 💾 Memory Configuration\n"]
        (generate_markdown_report_lines
          ⟨"Server1-Fast", "fast.example.com", "mydb", "admin", "pw1", 5432⟩
          ⟨"Server2-Slow", "slow.example.com", "mydb", "admin", "pw2", 5432⟩
          "2026-10-12 00:00:00"
          ⟨none, none, none, none, none, none, none, [], [], [], [], [], none⟩
          ⟨none, none, none, none, none, none, none, [], [], [], [], [], none⟩) := by
  constructor
  · decide
  · decide

/-- C8 witness: the amended claim instantiated at a run with every list
category empty — all eight fixed sentences are present, and the autovacuum
header is followed directly by the blank line. -/
theorem c8_witness :
    "\n### Server 1: No active queries\n"
      ∈ generate_markdown_report_lines
          ⟨"s1", "h1", "db", "u", "p", 5432⟩ ⟨"s2", "h2", "db", "u", "p", 5432⟩ "t"
          ⟨none, none, none, none, none, none, none, [], [], [], [], [], none⟩
          ⟨none, none, none, none, none, none, none, [], [], [], [], [], none⟩
    ∧ "\n### Server 2: No query performance issues detected\n"
      ∈ generate_markdown_report_lines
          ⟨"s1", "h1", "db", "u", "p", 5432⟩ ⟨"s2", "h2", "db", "u", "p", 5432⟩ "t"
          ⟨none, none, none, none, none, none, none, [], [], [], [], [], none⟩
          ⟨none, none, none, none, none, none, none, [], [], [], [], [], none⟩
    ∧ List.IsInfix ["## 🧹 Autovacuum Statistics\n", "\n"]
        (generate_markdown_report_lines
          ⟨"s1", "h1", "db", "u", "p", 5432⟩ ⟨"s2", "h2", "db", "u", "p", 5432⟩ "t"
          ⟨none, none, none, none, none, none, none, [], [], [], [], [], none⟩
          ⟨none, none, none, none, none, none, none, [], [], [], [], [], none⟩) :=
  ⟨( c8_theorem ⟨"s1", "h1", "db", "u", "p", 5432⟩ ⟨"s2", "h2", "db", "u", "p", 5432⟩ "t"
      ⟨none, none, none, none, none, none, none, [], [], [], [], [], none⟩
      ⟨none, none, none, none, none, none, none, [], [], [], [], [], none⟩).1 rfl,
   ( c8_theorem ⟨"s1", "h1", "db", "u", "p", 5432⟩ ⟨"s2", "h2", "db", "u", "p", 5432⟩ "t"
      ⟨none, none, none, none, none, none, none, [], [], [], [], [], none⟩
      ⟨none, none, none, none, none, none, none, [], [], [], [], [], none⟩).2.2.2.2.2.2.2.1 rfl,
   ( c8_theorem ⟨"s1", "h1", "db", "u", "p", 5432⟩ ⟨"s2", "h2", "db", "u", "p", 5432⟩ "t"
      ⟨none, none, none, none, none, none, none, [], [], [], [], [], none⟩
      ⟨none, none, none, none, none, none, none, [], [], [], [], [], none⟩).2.2.2.2.2.2.2.2 rfl rfl⟩

/-- Observable events of one run: connections opened and closed, process
exit via `sys.exit`, and the outcome of report generation. -/
inductive RunEv where
  | open1 : RunEv
  | open2 : RunEv
  | close1 : RunEv
  | close2 : RunEv
  | exited : Nat → RunEv
  | reportWritten : RunEv
  | reportFailed : RunEv
deriving DecidableEq, Repr

/-- Event trace of `connect`: each `psycopg2.connect` either succeeds or
raises; a failure is answered with `sys.exit(1)` on the spot, without any
cleanup of a previously opened connection. -/
def connect_events (ok1 ok2 : Bool) : List RunEv :=
  if ok1 then
    RunEv.open1 :: (if ok2 then [RunEv.open2] else [RunEv.exited 1])
  else
    [RunEv.exited 1]

/-- Event trace of `close`: called with both connections established, it
closes both. -/
def close_events : List RunEv := [RunEv.close1, RunEv.close2]

/-- Event trace of `main` after argument validation: construct the
diagnostic (which runs `connect` and may terminate the process), then
`try: generate/write report finally: close`.  Report failure still runs the
`finally` block before the exception propagates. -/
def main_events (ok1 ok2 reportOk : Bool) : List RunEv :=
  let ct := connect_events ok1 ok2
  if ct.contains (RunEv.exited 1) then ct
  else ct ++ ((if reportOk then [RunEv.reportWritten] else [RunEv.reportFailed]) ++ close_events)

/-- C9.  The claim fails on the mixed-connection path: when server 1's
connection succeeds and server 2's fails, `connect` calls `sys.exit(1)`
directly and the already-open first connection is never explicitly closed
(only process teardown reclaims it) — `main`'s `try/finally` has not been
entered yet.  Amended claim, proved here: once both connections are
established, both are explicitly closed on every exit path (successful
report or report failure); but when the second connection attempt fails the
trace is exactly open-then-exit, with no close event. -/
theorem c9_theorem (ok1 ok2 reportOk : Bool) :
    (ok1 = true → ok2 = true →
      RunEv.close1 ∈ main_events ok1 ok2 reportOk
      ∧ RunEv.close2 ∈ main_events ok1 ok2 reportOk)
    ∧ (ok1 = true → ok2 = false →
      main_events ok1 ok2 reportOk = [RunEv.open1, RunEv.exited 1]) := by
  constructor
  · intro h1 h2
    subst h1
    subst h2
    cases reportOk <;> exact ⟨by decide, by decide⟩
  · intro h1 h2
    subst h1
    subst h2
    cases reportOk <;> decide

/-- C9 counterexample to the claim as stated: with the first connection
established and the second failing, the run's trace opens connection 1 and
exits; no close event for connection 1 ever occurs. -/
theorem c9_counterexample :
    main_events true false true = [RunEv.open1, RunEv.exited 1]
    ∧ RunEv.open1 ∈ main_events true false true
    ∧ RunEv.close1 ∉ main_events true false true := by
  refine ⟨by decide, by decide, by decide⟩

/-- C9 witness: both-connections-open runs close both on the success and on
the failure path, and the mixed path is exactly open-then-exit. -/
theorem c9_witness :
    (RunEv.close1 ∈ main_events true true true ∧ RunEv.close2 ∈ main_events true true true)
    ∧ (RunEv.close1 ∈ main_events true true false ∧ RunEv.close2 ∈ main_events true true false)
    ∧ main_events true false true = [RunEv.open1, RunEv.exited 1] :=
  ⟨( c9_theorem true true true).1 rfl rfl,
   ( c9_theorem true true false).1 rfl rfl,
   ( c9_theorem true false true).2 rfl rfl⟩

/-- Lower-case hexadecimal digit, as used by Python's `json` escapes. -/
def hexDigit (n : Nat) : Char :=
  if n < 10 then Char.ofNat (48 + n) else Char.ofNat (87 + n)

/-- A `\uXXXX` escape for a code unit. -/
def uEsc (n : Nat) : List Char :=
  ['\\', 'u', hexDigit ((n / 4096) % 16), hexDigit ((n / 256) % 16),
   hexDigit ((n / 16) % 16), hexDigit (n % 16)]

/-- Escaping of one character under `json.dumps` defaults
(`ensure_ascii=True`): the two mandatory escapes, the short control escapes,
`\uXXXX` for the remaining control characters and for everything non-ASCII
(with surrogate pairs beyond the basic plane). -/
def jsonEscapeChar (c : Char) : List Char :=
  if c = '"' then ['\\', '"']
  else if c = '\\' then ['\\', '\\']
  else if c = '\n' then ['\\', 'n']
  else if c = '\t' then ['\\', 't']
  else if c = '\r' then ['\\', 'r']
  else if c.toNat = 8 then ['\\', 'b']
  else if c.toNat = 12 then ['\\', 'f']
  else if c.toNat < 32 then uEsc c.toNat
  else if c.toNat < 128 then [c]
  else if c.toNat < 65536 then uEsc c.toNat
  else uEsc (55296 + (c.toNat - 65536) / 1024) ++ uEsc (56320 + (c.toNat - 65536) % 1024)

/-- String-body escaping under `json.dumps` defaults. -/
def jsonEscape (s : String) : String :=
  String.mk (List.flatten (s.data.map jsonEscapeChar))

/-- A JSON string literal for `s`. -/
def jsonStr (s : String) : String := "\"" ++ (jsonEscape s ++ "\"")

/-- `json.dumps` rendering of one `ServerConfig.__dict__` at `indent=2`,
nesting depth 2 — dataclass field order `name, host, database, user,
password, port`. -/
def serverObjJson (s : ServerConfig) : String :=
  "\x7b\n    \"name\": " ++ (jsonStr s.name ++
  (",\n    \"host\": " ++ (jsonStr s.host ++
  (",\n    \"database\": " ++ (jsonStr s.database ++
  (",\n    \"user\": " ++ (jsonStr s.user ++
  (",\n    " ++ ("\"password\": " ++ (jsonStr s.password ++
  (",\n    \"port\": " ++ (toString s.port ++ "\n  \x7d"))))))))))))

/-- The document written by `main` for the `json` format: both full server
configurations and the fixed placeholder report string — nothing else. -/
def json_output (s1 s2 : ServerConfig) : String :=
  "\x7b\n  \"server1\": " ++ (serverObjJson s1 ++
  (",\n  \"server2\": " ++ (serverObjJson s2 ++
  (",\n  " ++ ("\"report\": \"JSON format not yet implemented\"" ++ "\n\x7d")))))

/-- The report document `main` writes to the output file, by format:
markdown runs the renderer over the collected data; any other selected
format (the parser only admits `json`) serializes the two configurations. -/
def run_output (fmt : String) (cfg1 cfg2 : ServerConfig) (now : String)
    (d1 d2 : ServerData) : String :=
  if fmt = "markdown" then generate_markdown_report cfg1 cfg2 now d1 d2
  else json_output cfg1 cfg2

lemma jsonEscapeChar_simple (c : Char) (h1 : 32 ≤ c.toNat) (h2 : c.toNat < 127)
    (h3 : c ≠ '"') (h4 : c ≠ '\\') : jsonEscapeChar c = [c] := by
  have hn : ¬ c = '\n' := fun h => absurd h1 (by subst h; decide)
  have ht : ¬ c = '\t' := fun h => absurd h1 (by subst h; decide)
  have hr : ¬ c = '\r' := fun h => absurd h1 (by subst h; decide)
  have hb : ¬ c.toNat = 8 := by omega
  have hf : ¬ c.toNat = 12 := by omega
  have h32 : ¬ c.toNat < 32 := by omega
  have h128 : c.toNat < 128 := by omega
  simp [jsonEscapeChar, h3, h4, hn, ht, hr, hb, hf, h32, h128]

lemma jsonEscape_simple (s : String)
    (h : ∀ c ∈ s.data, 32 ≤ c.toNat ∧ c.toNat < 127 ∧ c ≠ '"' ∧ c ≠ '\\') :
    jsonEscape s = s := by
  suffices h2 : ∀ l : List Char,
      (∀ c ∈ l, 32 ≤ c.toNat ∧ c.toNat < 127 ∧ c ≠ '"' ∧ c ≠ '\\') →
      List.flatten (l.map jsonEscapeChar) = l by
    exact String.ext (h2 s.data h)
  intro l hl
  induction l with
  | nil => rfl
  | cons c cs ih =>
    obtain ⟨e1, e2, e3, e4⟩ := hl c (by simp)
    simp only [List.map_cons, List.flatten_cons]
    rw [jsonEscapeChar_simple c e1 e2 e3 e4, ih (fun x hx => hl x (by simp [hx]))]
    rfl

/-- C10.  Confirmed: under the `json` output format the written document is
a pure function of the two server configurations — changing the collected
diagnostic data (or the timestamp) cannot change one byte of it — it embeds
both configurations in full, including each `password` field (verbatim for
ordinary ASCII passwords), and its `report` member is the constant
placeholder string. -/
theorem c10_theorem (cfg1 cfg2 : ServerConfig) (now now2 : String)
    (d1 d2 d3 d4 : ServerData) :
    run_output "json" cfg1 cfg2 now d1 d2 = json_output cfg1 cfg2
    ∧ run_output "json" cfg1 cfg2 now d1 d2 = run_output "json" cfg1 cfg2 now2 d3 d4
    ∧ (∃ pre post, json_output cfg1 cfg2
        = pre ++ (("\"password\": " ++ jsonStr cfg1.password) ++ post))
    ∧ (∃ pre post, json_output cfg1 cfg2
        = pre ++ (("\"password\": " ++ jsonStr cfg2.password) ++ post))
    ∧ (∃ pre post, json_output cfg1 cfg2
        = pre ++ ("\"report\": \"JSON format not yet implemented\"" ++ post))
    ∧ ((∀ c ∈ cfg1.password.data, 32 ≤ c.toNat ∧ c.toNat < 127 ∧ c ≠ '"' ∧ c ≠ '\\') →
        jsonStr cfg1.password = "\"" ++ (cfg1.password ++ "\"")) := by
  refine ⟨?_, ?_, ?_, ?_, ?_, ?_⟩
  · unfold run_output
    rw [if_neg (by decide)]
  · unfold run_output
    rw [if_neg (by decide), if_neg (by decide)]
  · refine ⟨"\x7b\n  \"server1\": " ++ ("\x7b\n    \"name\": " ++ (jsonStr cfg1.name ++
      (",\n    \"host\": " ++ (jsonStr cfg1.host ++ (",\n    \"database\": " ++
      (jsonStr cfg1.database ++ (",\n    \"user\": " ++ (jsonStr cfg1.user ++ ",\n    ")))))))),
      ",\n    \"port\": " ++ (toString cfg1.port ++ ("\n  \x7d" ++ (",\n  \"server2\": " ++
      (serverObjJson cfg2 ++ (",\n  " ++ ("\"report\": \"JSON format not yet implemented\"" ++
      "\n\x7d")))))), ?_⟩
    simp only [json_output, serverObjJson, String.append_assoc]
  · refine ⟨"\x7b\n  \"server1\": " ++ (serverObjJson cfg1 ++ (",\n  \"server2\": " ++
      ("\x7b\n    \"name\": " ++ (jsonStr cfg2.name ++ (",\n    \"host\": " ++
      (jsonStr cfg2.host ++ (",\n    \"database\": " ++ (jsonStr cfg2.database ++
      (",\n    \"user\": " ++ (jsonStr cfg2.user ++ ",\n    ")))))))))),
      ",\n    \"port\": " ++ (toString cfg2.port ++ ("\n  \x7d" ++ (",\n  " ++
      ("\"report\": \"JSON format not yet implemented\"" ++ "\n\x7d")))), ?_⟩
    simp only [json_output, serverObjJson, String.append_assoc]
  · refine ⟨"\x7b\n  \"server1\": " ++ (serverObjJson cfg1 ++ (",\n  \"server2\": " ++
      (serverObjJson cfg2 ++ ",\n  "))), "\n\x7d", ?_⟩
    simp only [json_output, serverObjJson, String.append_assoc]
  · intro h
    unfold jsonStr
    rw [jsonEscape_simple cfg1.password h]

/-- C10 witness: for a concrete pair of configurations the json-format
output equals the configuration dump whatever diagnostic data was collected
(here: compared against a run that found an active query and a bloated
table), and the plaintext password appears verbatim inside it. -/
theorem c10_witness :
    run_output "json"
        ⟨"Server1-Fast", "fast.example.com", "mydb", "admin", "hunter2", 5432⟩
        ⟨"Server2-Slow", "slow.example.com", "mydb", "admin", "s3cret", 5432⟩
        "2026-10-12 00:00:00"
        ⟨none, none, none, none, none, none, none, [], [], [], [], [], none⟩
        ⟨none, none, none, none, none, none, none, [], [], [], [], [], none⟩
      = json_output
        ⟨"Server1-Fast", "fast.example.com", "mydb", "admin", "hunter2", 5432⟩
        ⟨"Server2-Slow", "slow.example.com", "mydb", "admin", "s3cret", 5432⟩
    ∧ run_output "json"
        ⟨"Server1-Fast", "fast.example.com", "mydb", "admin", "hunter2", 5432⟩
        ⟨"Server2-Slow", "slow.example.com", "mydb", "admin", "s3cret", 5432⟩
        "2026-10-12 00:00:00"
        ⟨none, none, none, none, none, none, none, [], [], [], [], [], none⟩
        ⟨none, none, none, none, none, none, none, [], [], [], [], [], none⟩
      = run_output "json"
        ⟨"Server1-Fast", "fast.example.com", "mydb", "admin", "hunter2", 5432⟩
        ⟨"Server2-Slow", "slow.example.com", "mydb", "admin", "s3cret", 5432⟩
        "2027-01-01 12:00:00"
        ⟨none, none, none, none, none, none, none,
          [⟨101, "alice", "active", some 123450, "SELECT 1"⟩], [],
          [⟨"public", "big", 10, 2000, some 9500, "1 GB"⟩], [], [], none⟩
        ⟨none, none, none, none, none, none, none, [], [], [], [], [], none⟩
    ∧ jsonStr "hunter2" = "\"" ++ ("hunter2" ++ "\"")
    ∧ jsonStr "hunter2" = "\"hunter2\"" :=
  ⟨( c10_theorem
      ⟨"Server1-Fast", "fast.example.com", "mydb", "admin", "hunter2", 5432⟩
      ⟨"Server2-Slow", "slow.example.com", "mydb", "admin", "s3cret", 5432⟩
      "2026-10-12 00:00:00" "2027-01-01 12:00:00"
      ⟨none, none, none, none, none, none, none, [], [], [], [], [], none⟩
      ⟨none, none, none, none, none, none, none, [], [], [], [], [], none⟩
      ⟨none, none, none, none, none, none, none,
        [⟨101, "alice", "active", some 123450, "SELECT 1"⟩], [],
        [⟨"public", "big", 10, 2000, some 9500, "1 GB"⟩], [], [], none⟩
      ⟨none, none, none, none, none, none, none, [], [], [], [], [], none⟩).1,
   ( c10_theorem
      ⟨"Server1-Fast", "fast.example.com", "mydb", "admin", "hunter2", 5432⟩
      ⟨"Server2-Slow", "slow.example.com", "mydb", "admin", "s3cret", 5432⟩
      "2026-10-12 00:00:00" "2027-01-01 12:00:00"
      ⟨none, none, none, none, none, none, none, [], [], [], [], [], none⟩
      ⟨none, none, none, none, none, none, none, [], [], [], [], [], none⟩
      ⟨none, none, none, none, none, none, none,
        [⟨101, "alice", "active", some 123450, "SELECT 1"⟩], [],
        [⟨"public", "big", 10, 2000, some 9500, "1 GB"⟩], [], [], none⟩
      ⟨none, none, none, none, none, none, none, [], [], [], [], [], none⟩).2.1,
   ( c10_theorem
      ⟨"Server1-Fast", "fast.example.com", "mydb", "admin", "hunter2", 5432⟩
      ⟨"Server2-Slow", "slow.example.com", "mydb", "admin", "s3cret", 5432⟩
      "2026-10-12 00:00:00" "2027-01-01 12:00:00"
      ⟨none, none, none, none, none, none, none, [], [], [], [], [], none⟩
      ⟨none, none, none, none, none, none, none, [], [], [], [], [], none⟩
      ⟨none, none, none, none, none, none, none,
        [⟨101, "alice", "active", some 123450, "SELECT 1"⟩], [],
        [⟨"public", "big", 10, 2000, some 9500, "1 GB"⟩], [], [], none⟩
      ⟨none, none, none, none, none, none, none, [], [], [], [], [], none⟩).2.2.2.2.2
     (by decide),
   by decide⟩
